import Mathlib

/-!
Verification development for the DNS wire-format codec in
src/resolve/resolved-dns-packet.c (systemd resolved).

The C code is shallowly embedded: the packet is a record holding the byte
store (a function from offsets to octets), the logical size, the read
cursor `rindex`, the allocation bound and the compression-offset map.
Machine integers are modelled as `Nat` with explicit reductions
(`% 256` for `uint8_t`, `% 65536` for `uint16_t`, `% 2^64` for `size_t`
where wrap-around is observable).  Every operation returns the C status
`Int` (negative errno on failure) together with the updated packet and
its out-parameters.  Loops whose termination is not structural carry an
explicit fuel argument and return `Option`; `none` means the loop did
not terminate within the fuel.

Helpers that live in other files of the repository (dns-type.c,
dns-domain.c, basic/) are modelled from the specification and marked as
such in their doc comments.
-/

namespace Systemd

/-- Size of the DNS packet header (12 bytes, RFC 1035). -/
def DNS_PACKET_HEADER_SIZE : Nat := 12

/-- Modelled from the spec: PACKET_SIZE_MAX, the hard cap on a packet
(65535, the spec's "default 65535 over TCP"); defined in
resolved-dns-packet.h which is not part of the sources. -/
def DNS_PACKET_SIZE_MAX : Nat := 65535

/-- Modelled from the spec: initial packet allocation for small MTUs
(512, the UDP unicast maximum); from resolved-dns-packet.h. -/
def DNS_PACKET_SIZE_START : Nat := 512

/-- Maximum length of a single DNS label (63 octets). -/
def DNS_LABEL_MAX : Nat := 63

/-- Modelled from the spec: the mDNS cache-flush bit, the high bit of the
class field (RFC 6762); from resolved-dns-packet.h. -/
def MDNS_RR_CACHE_FLUSH : Nat := 32768

/-- Modelled from the spec: size_t wraps modulo 2^64 on this platform. -/
def SIZE_T_MOD : Nat := 18446744073709551616

/-- errno EBADMSG (structurally invalid input, the spec's FORMAT_ERROR). -/
def EBADMSG : Int := 74

/-- errno EMSGSIZE (read past the end, the spec's OUT_OF_BOUNDS). -/
def EMSGSIZE : Int := 90

/-- errno ENOSPC (the code uses it when RDLENGTH exceeds 0xFFFF). -/
def ENOSPC : Int := 28

/-- errno E2BIG (over-long label or character string). -/
def E2BIG : Int := 7

/-- errno EEXIST (hashmap_put with a conflicting existing key). -/
def EEXIST : Int := 17

/-- errno ENOBUFS (dns_label_unescape with an over-long label). -/
def ENOBUFS : Int := 105

/-- DNS record/query type numbers used by the codec. -/
def DNS_TYPE_A : Nat := 1
def DNS_TYPE_NS : Nat := 2
def DNS_TYPE_CNAME : Nat := 5
def DNS_TYPE_SOA : Nat := 6
def DNS_TYPE_PTR : Nat := 12
def DNS_TYPE_HINFO : Nat := 13
def DNS_TYPE_MX : Nat := 15
def DNS_TYPE_TXT : Nat := 16
def DNS_TYPE_AAAA : Nat := 28
def DNS_TYPE_LOC : Nat := 29
def DNS_TYPE_SRV : Nat := 33
def DNS_TYPE_DNAME : Nat := 39
def DNS_TYPE_OPT : Nat := 41
def DNS_TYPE_DS : Nat := 43
def DNS_TYPE_SSHFP : Nat := 44
def DNS_TYPE_RRSIG : Nat := 46
def DNS_TYPE_NSEC : Nat := 47
def DNS_TYPE_DNSKEY : Nat := 48
def DNS_TYPE_NSEC3 : Nat := 50
def DNS_TYPE_SPF : Nat := 99
def DNS_TYPE_TKEY : Nat := 249
def DNS_TYPE_TSIG : Nat := 250
def DNS_TYPE_IXFR : Nat := 251
def DNS_TYPE_AXFR : Nat := 252
def DNS_TYPE_ANY : Nat := 255

/-- Answer-entry flag: RR may be cached (Answer section only). -/
def DNS_ANSWER_CACHEABLE : Nat := 1

/-- Answer-entry flag: mDNS RR whose cache-flush bit was clear. -/
def DNS_ANSWER_SHARED_OWNER : Nat := 2

/-- The protocol variant of a packet (DNS_PROTOCOL_*). -/
inductive DnsProtocol
  | dns
  | mdns
  | llmnr
deriving DecidableEq

/-- A DNS label: its raw (unescaped) octets.  The C code carries labels
inside escaped strings; the embedding works with the octets directly, so
dns_label_unescape / dns_label_escape become list operations. -/
abbrev DnsLabel := List Nat

/-- A domain name as the ordered list of its labels; the root name is the
empty list. -/
abbrev DnsName := List DnsLabel

/-- Modelled from the spec: dns_type_is_pseudo (dns-type.c, not under
src/): the meta- and query-only types excluded from NSEC bitmaps by
RFC 4034 section 4.1.2 (OPT, TKEY, TSIG, IXFR, AXFR, ANY). -/
def dns_type_is_pseudo (t : Nat) : Bool :=
  t = DNS_TYPE_OPT || t = DNS_TYPE_TKEY || t = DNS_TYPE_TSIG ||
  t = DNS_TYPE_IXFR || t = DNS_TYPE_AXFR || t = DNS_TYPE_ANY

/-- Modelled from the spec: dns_class_is_valid_rr (dns-type.c): any class
except ANY (255) is acceptable on a resource record. -/
def dns_class_is_valid_rr (c : Nat) : Bool :=
  decide (c ≠ 255)

/-- Modelled from the spec: dns_type_is_valid_rr (dns-type.c): the
query-only types ANY, AXFR, IXFR may not appear as resource records. -/
def dns_type_is_valid_rr (t : Nat) : Bool :=
  decide (t ≠ DNS_TYPE_ANY ∧ t ≠ DNS_TYPE_AXFR ∧ t ≠ DNS_TYPE_IXFR)

/-- Modelled from the spec: dns_type_is_valid_query (dns-type.c): OPT,
TSIG and TKEY are not acceptable as question types. -/
def dns_type_is_valid_query (t : Nat) : Bool :=
  decide (t ≠ DNS_TYPE_OPT ∧ t ≠ DNS_TYPE_TSIG ∧ t ≠ DNS_TYPE_TKEY)

/-- dns_name_is_root: the owner name is "." (no labels). -/
def dns_name_is_root (n : DnsName) : Bool :=
  decide (n = [])

/-- The owner name / type / class triple.  `class` is a Lean keyword,
so the field is named `rclass`. -/
structure DnsResourceKey where
  name : DnsName
  type : Nat
  rclass : Nat
deriving DecidableEq

/-- The type-tagged rdata variant of a resource record (one case per
type the codec parses; `generic` is the verbatim fallback). -/
inductive RData
  | srv (priority weight port : Nat) (name : DnsName)
  | ptr (name : DnsName)
  | hinfo (cpu os : List Nat)
  | txt (items : List (List Nat))
  | a (in_addr : List Nat)
  | aaaa (in6_addr : List Nat)
  | soa (mname rname : DnsName) (serial refresh retry expire minimum : Nat)
  | mx (priority : Nat) (exchange : DnsName)
  | loc (version size horiz_pre vert_pre latitude longitude altitude : Nat)
  | ds (key_tag algorithm digest_type : Nat) (digest : List Nat)
  | sshfp (algorithm fptype : Nat) (fingerprint : List Nat)
  | dnskey (flags protocol algorithm : Nat) (key : List Nat)
  | rrsig (type_covered algorithm labels original_ttl expiration inception key_tag : Nat)
      (signer : DnsName) (signature : List Nat)
  | nsec (next_domain_name : DnsName) (types : List Nat)
  | nsec3 (algorithm flags iterations : Nat) (salt : List Nat)
      (next_hashed_name : List Nat) (types : List Nat)
  | generic (data : List Nat)
deriving DecidableEq

/-- A resource record: key, TTL, rdata variant and the `unparseable`
flag (rdata preserved verbatim). -/
structure DnsResourceRecord where
  key : DnsResourceKey
  ttl : Nat
  rdata : RData
  unparseable : Bool
deriving DecidableEq

/-- The packet container.  The byte buffer is modelled as a function
from offsets to octets (reallocation preserves the prefix, so growth is
invisible to the store); `names` is the compression offset map keyed by
the remaining suffix of the appended name. -/
structure DnsPacket where
  data : Nat → Nat
  size : Nat
  rindex : Nat
  allocated : Nat
  protocol : DnsProtocol
  refuse_compression : Bool
  canonical_form : Bool
  names : List (DnsName × Nat)
  question : Option (List DnsResourceKey)
  answer : Option (List (DnsResourceRecord × Nat))
  opt : Option DnsResourceRecord
  extracted : Bool

/-- Read one octet of the backing buffer (uint8_t access). -/
def byteAt (p : DnsPacket) (i : Nat) : Nat :=
  p.data i % 256

/-- The `n` octets of the buffer starting at `off`. -/
def bytesAt (p : DnsPacket) (off : Nat) : Nat → List Nat
  | 0 => []
  | n + 1 => byteAt p off :: bytesAt p (off + 1) n

/-- Store one octet at offset `i` (uint8_t store). -/
def storeByte (d : Nat → Nat) (i v : Nat) : Nat → Nat :=
  fun j => if j = i then v % 256 else d j

/-- Store a run of octets starting at offset `i`. -/
def storeBytes (d : Nat → Nat) (i : Nat) : List Nat → (Nat → Nat)
  | [] => d
  | b :: rest => storeBytes (storeByte d i b) (i + 1) rest

/-- Modelled from the spec: PAGE_ALIGN rounds up to the next multiple of
the 4096-byte page (macro from basic/util.h). -/
def PAGE_ALIGN (x : Nat) : Nat :=
  (x + 4095) / 4096 * 4096

/-- dns_packet_extend: make room for `add` more bytes, growing the
allocation to min(PACKET_SIZE_MAX, PAGE_ALIGN(2 * required)) when needed
and failing with -EMSGSIZE when even that does not suffice.  Returns
(status, packet, start offset of the reserved region).  Allocation
itself is assumed to succeed (-ENOMEM is not modelled). -/
def dns_packet_extend (p : DnsPacket) (add : Nat) : Int × DnsPacket × Nat :=
  if p.size + add > p.allocated then
    let a0 := PAGE_ALIGN ((p.size + add) * 2)
    let a := if a0 > DNS_PACKET_SIZE_MAX then DNS_PACKET_SIZE_MAX else a0
    if p.size + add > a then (-EMSGSIZE, p, 0)
    else (0, { p with allocated := a, size := p.size + add }, p.size)
  else (0, { p with size := p.size + add }, p.size)

/-- dns_packet_truncate: roll the packet back to size `sz`, dropping
every compression-map entry whose offset is not below `sz`. -/
def dns_packet_truncate (p : DnsPacket) (sz : Nat) : DnsPacket :=
  if p.size ≤ sz then p
  else { p with size := sz, names := p.names.filter (fun e => e.2 < sz) }

/-- dns_packet_append_blob. -/
def dns_packet_append_blob (p : DnsPacket) (d : List Nat) : Int × DnsPacket × Nat :=
  match dns_packet_extend p d.length with
  | (r, p1, start) =>
    if r < 0 then (r, p1, start)
    else (0, { p1 with data := storeBytes p1.data start d }, start)

/-- dns_packet_append_uint8. -/
def dns_packet_append_uint8 (p : DnsPacket) (v : Nat) : Int × DnsPacket × Nat :=
  match dns_packet_extend p 1 with
  | (r, p1, start) =>
    if r < 0 then (r, p1, start)
    else (0, { p1 with data := storeByte p1.data start v }, start)

/-- dns_packet_append_uint16 (big-endian). -/
def dns_packet_append_uint16 (p : DnsPacket) (v : Nat) : Int × DnsPacket × Nat :=
  match dns_packet_extend p 2 with
  | (r, p1, start) =>
    if r < 0 then (r, p1, start)
    else
      let w := v % 65536
      (0, { p1 with data := storeBytes p1.data start [w / 256, w % 256] }, start)

/-- dns_packet_append_uint32 (big-endian). -/
def dns_packet_append_uint32 (p : DnsPacket) (v : Nat) : Int × DnsPacket × Nat :=
  match dns_packet_extend p 4 with
  | (r, p1, start) =>
    if r < 0 then (r, p1, start)
    else
      let w := v % 4294967296
      let d := storeBytes p1.data start [w / 16777216, w / 65536 % 256, w / 256 % 256, w % 256]
      (0, { p1 with data := d }, start)

/-- dns_packet_append_raw_string: 1-byte length prefix plus up to 255
octets; longer bodies fail with -E2BIG. -/
def dns_packet_append_raw_string (p : DnsPacket) (s : List Nat) : Int × DnsPacket × Nat :=
  if s.length > 255 then (-E2BIG, p, 0)
  else
    match dns_packet_extend p (1 + s.length) with
    | (r, p1, start) =>
      if r < 0 then (r, p1, start)
      else (0, { p1 with data := storeBytes p1.data start (s.length :: s) }, start)

/-- dns_packet_append_string (same as raw with the C string's length). -/
def dns_packet_append_string (p : DnsPacket) (s : List Nat) : Int × DnsPacket × Nat :=
  dns_packet_append_raw_string p s

/-- ASCII upper-case to lower-case fold of one octet. -/
def asciiLower (c : Nat) : Nat :=
  if 65 ≤ c % 256 ∧ c % 256 ≤ 90 then c % 256 + 32 else c % 256

/-- dns_packet_append_label: length byte plus label octets, folded to
lower case when the packet is in canonical form and the label is a
canonical candidate (RFC 4034 section 6.2); labels over 63 octets fail
with -E2BIG. -/
def dns_packet_append_label (p : DnsPacket) (d : DnsLabel) (canonical_candidate : Bool) :
    Int × DnsPacket × Nat :=
  if d.length > DNS_LABEL_MAX then (-E2BIG, p, 0)
  else
    match dns_packet_extend p (1 + d.length) with
    | (r, p1, start) =>
      if r < 0 then (r, p1, start)
      else
        let w := if p.canonical_form && canonical_candidate then d.map asciiLower else d
        (0, { p1 with data := storeBytes p1.data start (d.length :: w) }, start)

/-- Look a name up in the compression map (hashmap_get; absent keys give
the C code's NULL, which PTR_TO_SIZE turns into 0 at the call site). -/
def namesGet (m : List (DnsName × Nat)) (k : DnsName) : Option Nat :=
  match m with
  | [] => none
  | (k2, v) :: rest => if k2 = k then some v else namesGet rest k

/-- Modelled from the spec: compression-map insertion, with the systemd
hashmap_put convention (basic/hashmap.c, not under src/): 1 when newly
added, 0 when the key is present with the same value, -EEXIST when the
key is present with a different value. -/
def namesPut (m : List (DnsName × Nat)) (k : DnsName) (v : Nat) :
    Int × List (DnsName × Nat) :=
  match namesGet m k with
  | none => (1, (k, v) :: m)
  | some v2 => if v2 = v then (0, m) else (-EEXIST, m)

/-- Modelled from the spec: dns_label_unescape (dns-domain.c): unescape
the next label of the name (the caller advances to the rest), failing
with -ENOBUFS when it does not fit the 63-octet label buffer; returns
(length, label).  On the label-list representation the unescaping
itself is the identity. -/
def dns_label_unescape (l : DnsLabel) : Int × DnsLabel :=
  if l.length > DNS_LABEL_MAX then (-ENOBUFS, [])
  else ((l.length : Int), l)

/-- Modelled from the spec: dns_label_apply_idna / dns_label_undo_idna
(dns-domain.c): IDNA A-label/U-label conversion.  The embedding treats
labels as opaque octets, so the conversion is the identity (0 = label
unchanged, as the C functions report for non-IDNA labels). -/
def dns_label_idna (l : DnsLabel) : Int × DnsLabel :=
  (0, l)

/-- The while loop of dns_packet_append_name, one iteration per
remaining suffix of the name.  The Bool result is true when the loop
ended through a compression pointer (the C `goto done`, which skips the
trailing root byte).  Note: when a suffix is found in the map at an
offset not below 0x4000 the code falls through to the literal label and
then hashmap_put fails with -EEXIST on the already-present key. -/
def appendNameLoop (p : DnsPacket) (name : DnsName) (ac cc : Bool) :
    Int × DnsPacket × Bool :=
  match name with
  | [] => (0, p, false)
  | l :: rest =>
    let n := (if ac then namesGet p.names (l :: rest) else none).getD 0
    if n > 0 ∧ n < 0x4000 then
      match dns_packet_append_uint16 p (0xC000 ||| n) with
      | (r, p1, _) => if r < 0 then (r, p1, false) else (0, p1, true)
    else
      match dns_label_unescape l with
      | (r0, label) =>
        if r0 < 0 then (r0, p, false)
        else
          match dns_label_idna label with
          | (k, label2) =>
            if k < 0 then (k, p, false)
            else
              match dns_packet_append_label p label2 cc with
              | (r1, p1, nstart) =>
                if r1 < 0 then (r1, p1, false)
                else if ac then
                  match namesPut p1.names (l :: rest) nstart with
                  | (r2, m2) =>
                    if r2 < 0 then (r2, { p1 with names := m2 }, false)
                    else appendNameLoop { p1 with names := m2 } rest ac cc
                else appendNameLoop p1 rest ac cc

/-- dns_packet_append_name: emit the name label by label, consulting the
compression map for each remaining suffix and recording the offset of
each emitted label; terminated by a pointer or a root byte.  Failures
inside the loop truncate back to the pre-call size; a failure of the
final root byte returns without truncating (the C code's plain
`return r`).  Returns (status, packet, start offset). -/
def dns_packet_append_name (p : DnsPacket) (name : DnsName)
    (allow_compression canonical_candidate : Bool) : Int × DnsPacket × Nat :=
  let ac := if p.refuse_compression then false else allow_compression
  let saved := p.size
  match appendNameLoop p name ac canonical_candidate with
  | (r, p1, viaPtr) =>
    if r < 0 then (r, dns_packet_truncate p1 saved, saved)
    else if viaPtr then (0, p1, saved)
    else
      match dns_packet_append_uint8 p1 0 with
      | (r2, p2, _) =>
        if r2 < 0 then (r2, p2, saved)
        else (0, p2, saved)

/-- dns_packet_append_key: name (compression on, canonical candidate
on), type, class; truncating back on failure. -/
def dns_packet_append_key (p : DnsPacket) (k : DnsResourceKey) : Int × DnsPacket × Nat :=
  let saved := p.size
  match dns_packet_append_name p k.name true true with
  | (r, p1, _) =>
    if r < 0 then (r, dns_packet_truncate p1 saved, saved)
    else
      match dns_packet_append_uint16 p1 k.type with
      | (r2, p2, _) =>
        if r2 < 0 then (r2, dns_packet_truncate p2 saved, saved)
        else
          match dns_packet_append_uint16 p2 k.rclass with
          | (r3, p3, _) =>
            if r3 < 0 then (r3, dns_packet_truncate p3 saved, saved)
            else (0, p3, saved)

/-- dns_packet_append_type_window: `[window][length][length bytes of
bitmap]`, truncating back on failure. -/
def dns_packet_append_type_window (p : DnsPacket) (window length : Nat)
    (types : List Nat) : Int × DnsPacket × Nat :=
  let saved := p.size
  match dns_packet_append_uint8 p window with
  | (r, p1, _) =>
    if r < 0 then (r, dns_packet_truncate p1 saved, saved)
    else
      match dns_packet_append_uint8 p1 length with
      | (r2, p2, _) =>
        if r2 < 0 then (r2, dns_packet_truncate p2 saved, saved)
        else
          match dns_packet_append_blob p2 (types.take length) with
          | (r3, p3, _) =>
            if r3 < 0 then (r3, dns_packet_truncate p3 saved, saved)
            else (0, p3, saved)

/-- Set the bit for entry `e` in the 32-byte window bitmap (byte e/8,
bit 7 - e%8). -/
def windowSetBit (bitmaps : List Nat) (e : Nat) : List Nat :=
  bitmaps.set (e / 8) ((bitmaps.getD (e / 8) 0) ||| 2 ^ (7 - e % 8))

/-- The BITMAP_FOREACH body of dns_packet_append_types: on a window
change with a pending non-empty bitmap, flush `entry / 8 + 1` bytes and
start over; finally record the current type's bit. -/
def appendTypesLoop (p : DnsPacket) (ts : List Nat) (window entry : Nat)
    (bitmaps : List Nat) : Int × DnsPacket × Nat × Nat × List Nat :=
  match ts with
  | [] => (0, p, window, entry, bitmaps)
  | n :: rest =>
    if n / 256 ≠ window ∧ bitmaps.getD (entry / 8) 0 ≠ 0 then
      match dns_packet_append_type_window p window (entry / 8 + 1) bitmaps with
      | (r, p1, _) =>
        if r < 0 then (r, p1, window, entry, bitmaps)
        else
          appendTypesLoop p1 rest (n / 256) (n % 256)
            (windowSetBit (List.replicate 32 0) (n % 256))
    else
      appendTypesLoop p rest (n / 256) (n % 256) (windowSetBit bitmaps (n % 256))

/-- dns_packet_append_types: NSEC window encoding of a bitmap (the
Bitmap is its ascending list of u16 members; BITMAP_FOREACH iterates in
increasing order), truncating back on failure. -/
def dns_packet_append_types (p : DnsPacket) (types : List Nat) : Int × DnsPacket × Nat :=
  let saved := p.size
  match appendTypesLoop p types 0 0 (List.replicate 32 0) with
  | (r, p1, window, entry, bitmaps) =>
    if r < 0 then (r, dns_packet_truncate p1 saved, saved)
    else if bitmaps.getD (entry / 8) 0 ≠ 0 then
      match dns_packet_append_type_window p1 window (entry / 8 + 1) bitmaps with
      | (r2, p2, _) =>
        if r2 < 0 then (r2, dns_packet_truncate p2 saved, saved)
        else (0, p2, saved)
    else (0, p1, saved)

/-- The TXT item list append loop (LIST_FOREACH over rr->txt.items). -/
def appendTxtLoop (p : DnsPacket) (items : List (List Nat)) : Int × DnsPacket :=
  match items with
  | [] => (0, p)
  | i :: rest =>
    match dns_packet_append_raw_string p i with
    | (r, p1, _) =>
      if r < 0 then (r, p1)
      else appendTxtLoop p1 rest

/-- Pad or cut a byte list to exactly `n` octets (the C code copies a
fixed-size address struct). -/
def fixedBytes (bs : List Nat) (n : Nat) : List Nat :=
  bs.take n ++ List.replicate (n - bs.length) 0

/-- The rdata-encoder dispatch of dns_packet_append_rr: one case per
record type (an `unparseable` record uses the verbatim fallback).  A
mismatch between the type tag and the rdata variant corresponds to the C
code reading an inactive union member; such records are never built by
this codec, and the model substitutes zero values there. -/
def appendRData (p : DnsPacket) (rr : DnsResourceRecord) : Int × DnsPacket :=
  if rr.unparseable then
    match dns_packet_append_blob p
        (match rr.rdata with | .generic d => d | _ => []) with
    | (r, p1, _) => (r, p1)
  else if rr.key.type = DNS_TYPE_SRV then
    match (match rr.rdata with
           | .srv priority weight port name => (priority, weight, port, name)
           | _ => (0, 0, 0, [])) with
    | (priority, weight, port, name) =>
      match dns_packet_append_uint16 p priority with
      | (r, p1, _) =>
        if r < 0 then (r, p1)
        else
          match dns_packet_append_uint16 p1 weight with
          | (r2, p2, _) =>
            if r2 < 0 then (r2, p2)
            else
              match dns_packet_append_uint16 p2 port with
              | (r3, p3, _) =>
                if r3 < 0 then (r3, p3)
                else
                  match dns_packet_append_name p3 name true false with
                  | (r4, p4, _) => (r4, p4)
  else if rr.key.type = DNS_TYPE_PTR ∨ rr.key.type = DNS_TYPE_NS ∨
      rr.key.type = DNS_TYPE_CNAME ∨ rr.key.type = DNS_TYPE_DNAME then
    match dns_packet_append_name p
        (match rr.rdata with | .ptr name => name | _ => []) true false with
    | (r, p1, _) => (r, p1)
  else if rr.key.type = DNS_TYPE_HINFO then
    match dns_packet_append_string p
        (match rr.rdata with | .hinfo cpu _ => cpu | _ => []) with
    | (r, p1, _) =>
      if r < 0 then (r, p1)
      else
        match dns_packet_append_string p1
            (match rr.rdata with | .hinfo _ os => os | _ => []) with
        | (r2, p2, _) => (r2, p2)
  else if rr.key.type = DNS_TYPE_SPF ∨ rr.key.type = DNS_TYPE_TXT then
    match (match rr.rdata with | .txt items => items | _ => []) with
    | [] =>
      match dns_packet_append_raw_string p [] with
      | (r, p1, _) => (r, p1)
    | items => appendTxtLoop p items
  else if rr.key.type = DNS_TYPE_A then
    match dns_packet_append_blob p
        (fixedBytes (match rr.rdata with | .a ad => ad | _ => []) 4) with
    | (r, p1, _) => (r, p1)
  else if rr.key.type = DNS_TYPE_AAAA then
    match dns_packet_append_blob p
        (fixedBytes (match rr.rdata with | .aaaa ad => ad | _ => []) 16) with
    | (r, p1, _) => (r, p1)
  else if rr.key.type = DNS_TYPE_SOA then
    match (match rr.rdata with
           | .soa mname rname serial refresh retry expire minimum =>
             (mname, rname, serial, refresh, retry, expire, minimum)
           | _ => ([], [], 0, 0, 0, 0, 0)) with
    | (mname, rname, serial, refresh, retry, expire, minimum) =>
      match dns_packet_append_name p mname true false with
      | (r, p1, _) =>
        if r < 0 then (r, p1)
        else
          match dns_packet_append_name p1 rname true false with
          | (r2, p2, _) =>
            if r2 < 0 then (r2, p2)
            else
              match dns_packet_append_uint32 p2 serial with
              | (r3, p3, _) =>
                if r3 < 0 then (r3, p3)
                else
                  match dns_packet_append_uint32 p3 refresh with
                  | (r4, p4, _) =>
                    if r4 < 0 then (r4, p4)
                    else
                      match dns_packet_append_uint32 p4 retry with
                      | (r5, p5, _) =>
                        if r5 < 0 then (r5, p5)
                        else
                          match dns_packet_append_uint32 p5 expire with
                          | (r6, p6, _) =>
                            if r6 < 0 then (r6, p6)
                            else
                              match dns_packet_append_uint32 p6 minimum with
                              | (r7, p7, _) => (r7, p7)
  else if rr.key.type = DNS_TYPE_MX then
    match dns_packet_append_uint16 p
        (match rr.rdata with | .mx priority _ => priority | _ => 0) with
    | (r, p1, _) =>
      if r < 0 then (r, p1)
      else
        match dns_packet_append_name p1
            (match rr.rdata with | .mx _ exchange => exchange | _ => []) true false with
        | (r2, p2, _) => (r2, p2)
  else if rr.key.type = DNS_TYPE_LOC then
    match (match rr.rdata with
           | .loc version size horiz_pre vert_pre latitude longitude altitude =>
             (version, size, horiz_pre, vert_pre, latitude, longitude, altitude)
           | _ => (0, 0, 0, 0, 0, 0, 0)) with
    | (version, size, horiz_pre, vert_pre, latitude, longitude, altitude) =>
      match dns_packet_append_uint8 p version with
      | (r, p1, _) =>
        if r < 0 then (r, p1)
        else
          match dns_packet_append_uint8 p1 size with
          | (r2, p2, _) =>
            if r2 < 0 then (r2, p2)
            else
              match dns_packet_append_uint8 p2 horiz_pre with
              | (r3, p3, _) =>
                if r3 < 0 then (r3, p3)
                else
                  match dns_packet_append_uint8 p3 vert_pre with
                  | (r4, p4, _) =>
                    if r4 < 0 then (r4, p4)
                    else
                      match dns_packet_append_uint32 p4 latitude with
                      | (r5, p5, _) =>
                        if r5 < 0 then (r5, p5)
                        else
                          match dns_packet_append_uint32 p5 longitude with
                          | (r6, p6, _) =>
                            if r6 < 0 then (r6, p6)
                            else
                              match dns_packet_append_uint32 p6 altitude with
                              | (r7, p7, _) => (r7, p7)
  else if rr.key.type = DNS_TYPE_DS then
    match (match rr.rdata with
           | .ds key_tag algorithm digest_type digest =>
             (key_tag, algorithm, digest_type, digest)
           | _ => (0, 0, 0, [])) with
    | (key_tag, algorithm, digest_type, digest) =>
      match dns_packet_append_uint16 p key_tag with
      | (r, p1, _) =>
        if r < 0 then (r, p1)
        else
          match dns_packet_append_uint8 p1 algorithm with
          | (r2, p2, _) =>
            if r2 < 0 then (r2, p2)
            else
              match dns_packet_append_uint8 p2 digest_type with
              | (r3, p3, _) =>
                if r3 < 0 then (r3, p3)
                else
                  match dns_packet_append_blob p3 digest with
                  | (r4, p4, _) => (r4, p4)
  else if rr.key.type = DNS_TYPE_SSHFP then
    match (match rr.rdata with
           | .sshfp algorithm fptype fingerprint => (algorithm, fptype, fingerprint)
           | _ => (0, 0, [])) with
    | (algorithm, fptype, fingerprint) =>
      match dns_packet_append_uint8 p algorithm with
      | (r, p1, _) =>
        if r < 0 then (r, p1)
        else
          match dns_packet_append_uint8 p1 fptype with
          | (r2, p2, _) =>
            if r2 < 0 then (r2, p2)
            else
              match dns_packet_append_blob p2 fingerprint with
              | (r3, p3, _) => (r3, p3)
  else if rr.key.type = DNS_TYPE_DNSKEY then
    match (match rr.rdata with
           | .dnskey flags protocol algorithm key => (flags, protocol, algorithm, key)
           | _ => (0, 0, 0, [])) with
    | (flags, protocol, algorithm, key) =>
      match dns_packet_append_uint16 p flags with
      | (r, p1, _) =>
        if r < 0 then (r, p1)
        else
          match dns_packet_append_uint8 p1 protocol with
          | (r2, p2, _) =>
            if r2 < 0 then (r2, p2)
            else
              match dns_packet_append_uint8 p2 algorithm with
              | (r3, p3, _) =>
                if r3 < 0 then (r3, p3)
                else
                  match dns_packet_append_blob p3 key with
                  | (r4, p4, _) => (r4, p4)
  else if rr.key.type = DNS_TYPE_RRSIG then
    match (match rr.rdata with
           | .rrsig type_covered algorithm labels original_ttl expiration inception
               key_tag signer signature =>
             (type_covered, algorithm, labels, original_ttl, expiration, inception,
              key_tag, signer, signature)
           | _ => (0, 0, 0, 0, 0, 0, 0, [], [])) with
    | (type_covered, algorithm, labels, original_ttl, expiration, inception,
       key_tag, signer, signature) =>
      match dns_packet_append_uint16 p type_covered with
      | (r, p1, _) =>
        if r < 0 then (r, p1)
        else
          match dns_packet_append_uint8 p1 algorithm with
          | (r2, p2, _) =>
            if r2 < 0 then (r2, p2)
            else
              match dns_packet_append_uint8 p2 labels with
              | (r3, p3, _) =>
                if r3 < 0 then (r3, p3)
                else
                  match dns_packet_append_uint32 p3 original_ttl with
                  | (r4, p4, _) =>
                    if r4 < 0 then (r4, p4)
                    else
                      match dns_packet_append_uint32 p4 expiration with
                      | (r5, p5, _) =>
                        if r5 < 0 then (r5, p5)
                        else
                          match dns_packet_append_uint32 p5 inception with
                          | (r6, p6, _) =>
                            if r6 < 0 then (r6, p6)
                            else
                              match dns_packet_append_uint16 p6 key_tag with
                              | (r7, p7, _) =>
                                if r7 < 0 then (r7, p7)
                                else
                                  match dns_packet_append_name p7 signer false true with
                                  | (r8, p8, _) =>
                                    if r8 < 0 then (r8, p8)
                                    else
                                      match dns_packet_append_blob p8 signature with
                                      | (r9, p9, _) => (r9, p9)
  else if rr.key.type = DNS_TYPE_NSEC then
    match (match rr.rdata with
           | .nsec next_domain_name types => (next_domain_name, types)
           | _ => ([], [])) with
    | (next_domain_name, types) =>
      match dns_packet_append_name p next_domain_name false false with
      | (r, p1, _) =>
        if r < 0 then (r, p1)
        else
          match dns_packet_append_types p1 types with
          | (r2, p2, _) => (r2, p2)
  else if rr.key.type = DNS_TYPE_NSEC3 then
    match (match rr.rdata with
           | .nsec3 algorithm flags iterations salt next_hashed_name types =>
             (algorithm, flags, iterations, salt, next_hashed_name, types)
           | _ => (0, 0, 0, [], [], [])) with
    | (algorithm, flags, iterations, salt, next_hashed_name, types) =>
      match dns_packet_append_uint8 p algorithm with
      | (r, p1, _) =>
        if r < 0 then (r, p1)
        else
          match dns_packet_append_uint8 p1 flags with
          | (r2, p2, _) =>
            if r2 < 0 then (r2, p2)
            else
              match dns_packet_append_uint16 p2 iterations with
              | (r3, p3, _) =>
                if r3 < 0 then (r3, p3)
                else
                  match dns_packet_append_uint8 p3 salt.length with
                  | (r4, p4, _) =>
                    if r4 < 0 then (r4, p4)
                    else
                      match dns_packet_append_blob p4 salt with
                      | (r5, p5, _) =>
                        if r5 < 0 then (r5, p5)
                        else
                          match dns_packet_append_uint8 p5 next_hashed_name.length with
                          | (r6, p6, _) =>
                            if r6 < 0 then (r6, p6)
                            else
                              match dns_packet_append_blob p6 next_hashed_name with
                              | (r7, p7, _) =>
                                if r7 < 0 then (r7, p7)
                                else
                                  match dns_packet_append_types p7 types with
                                  | (r8, p8, _) => (r8, p8)
  else
    match dns_packet_append_blob p
        (match rr.rdata with | .generic d => d | _ => []) with
    | (r, p1, _) => (r, p1)

/-- dns_packet_append_rr: key, TTL, a 2-byte RDLENGTH placeholder, the
rdata, then the real RDLENGTH rewritten in place.  When the rdata is
longer than 0xFFFF the C code sets `r = ENOSPC` - the POSITIVE errno -
and jumps to the failure label, so the packet is truncated back but the
returned status is positive (line 1024 of resolved-dns-packet.c).  The
model reproduces that faithfully.  Returns (status, packet, start,
rdata_start). -/
def dns_packet_append_rr (p : DnsPacket) (rr : DnsResourceRecord) :
    Int × DnsPacket × Nat × Nat :=
  let saved := p.size
  match dns_packet_append_key p rr.key with
  | (r, p1, _) =>
    if r < 0 then (r, dns_packet_truncate p1 saved, 0, 0)
    else
      match dns_packet_append_uint32 p1 rr.ttl with
      | (r2, p2, _) =>
        if r2 < 0 then (r2, dns_packet_truncate p2 saved, 0, 0)
        else
          match dns_packet_append_uint16 p2 0 with
          | (r3, p3, rdlength_offset) =>
            if r3 < 0 then (r3, dns_packet_truncate p3 saved, 0, 0)
            else
              let rds := p3.size - saved
              match appendRData p3 rr with
              | (r4, p4) =>
                if r4 < 0 then (r4, dns_packet_truncate p4 saved, 0, 0)
                else
                  let rdlength := p4.size - rdlength_offset - 2
                  if rdlength > 0xFFFF then
                    (ENOSPC, dns_packet_truncate p4 saved, 0, 0)
                  else
                    let endSize := p4.size
                    match dns_packet_append_uint16
                        { p4 with size := rdlength_offset } rdlength with
                    | (r5, p5, _) =>
                      if r5 < 0 then (r5, dns_packet_truncate p5 saved, 0, 0)
                      else (0, { p5 with size := endSize }, saved, rds)

/-- dns_packet_read: advance `rindex` over `sz` bytes, failing with
-EMSGSIZE when fewer remain; returns (status, packet, start offset).
The `rindex + sz` additions are size_t arithmetic and wrap modulo 2^64
exactly as the C code's do. -/
def dns_packet_read (p : DnsPacket) (sz : Nat) : Int × DnsPacket × Nat :=
  if (p.rindex + sz) % SIZE_T_MOD > p.size then (-EMSGSIZE, p, 0)
  else (0, { p with rindex := (p.rindex + sz) % SIZE_T_MOD }, p.rindex)

/-- dns_packet_rewind: reset the read cursor (the C asserts that `idx`
lies between the header size and `size`; asserts are not modelled). -/
def dns_packet_rewind (p : DnsPacket) (idx : Nat) : DnsPacket :=
  { p with rindex := idx }

/-- dns_packet_read_uint8: returns (status, packet, value). -/
def dns_packet_read_uint8 (p : DnsPacket) : Int × DnsPacket × Nat :=
  match dns_packet_read p 1 with
  | (r, p1, start) =>
    if r < 0 then (r, p1, 0)
    else (0, p1, byteAt p1 start)

/-- dns_packet_read_uint16 (big-endian). -/
def dns_packet_read_uint16 (p : DnsPacket) : Int × DnsPacket × Nat :=
  match dns_packet_read p 2 with
  | (r, p1, start) =>
    if r < 0 then (r, p1, 0)
    else (0, p1, byteAt p1 start * 256 + byteAt p1 (start + 1))

/-- dns_packet_read_uint32 (big-endian). -/
def dns_packet_read_uint32 (p : DnsPacket) : Int × DnsPacket × Nat :=
  match dns_packet_read p 4 with
  | (r, p1, start) =>
    if r < 0 then (r, p1, 0)
    else
      (0, p1,
        byteAt p1 start * 16777216 + byteAt p1 (start + 1) * 65536 +
          byteAt p1 (start + 2) * 256 + byteAt p1 (start + 3))

/-- dns_packet_read_blob: `sz` raw octets. -/
def dns_packet_read_blob (p : DnsPacket) (sz : Nat) : Int × DnsPacket × List Nat :=
  match dns_packet_read p sz with
  | (r, p1, start) =>
    if r < 0 then (r, p1, [])
    else (0, p1, bytesAt p1 start sz)

/-- dns_packet_read_memdup: like read_blob (allocation always succeeds
in the model; a zero size yields the empty list for the C NULL). -/
def dns_packet_read_memdup (p : DnsPacket) (sz : Nat) : Int × DnsPacket × List Nat :=
  match dns_packet_read p sz with
  | (r, p1, start) =>
    if r < 0 then (r, p1, [])
    else (0, p1, bytesAt p1 start sz)

/-- Modelled from the spec: utf8_is_valid (basic/utf8.c): standard UTF-8
sequence validation over the octets. -/
def utf8_cont (b : Nat) : Bool :=
  decide (128 ≤ b ∧ b ≤ 191)

/-- Modelled from the spec: utf8_is_valid continued: leading byte
classification and continuation-byte checks. -/
def utf8_is_valid : List Nat → Bool
  | [] => true
  | c :: rest =>
    if c ≤ 127 then utf8_is_valid rest
    else if c ≤ 193 then false
    else if c ≤ 223 then
      match rest with
      | d :: r2 => utf8_cont d && utf8_is_valid r2
      | [] => false
    else if c ≤ 239 then
      match rest with
      | d :: e :: r2 => utf8_cont d && utf8_cont e && utf8_is_valid r2
      | _ => false
    else if c ≤ 244 then
      match rest with
      | d :: e :: f :: r2 => utf8_cont d && utf8_cont e && utf8_cont f && utf8_is_valid r2
      | _ => false
    else false

/-- dns_packet_read_string: 1-byte length, body without NUL octets that
must be valid UTF-8; rewinds on failure. -/
def dns_packet_read_string (p : DnsPacket) : Int × DnsPacket × List Nat :=
  let saved := p.rindex
  match dns_packet_read_uint8 p with
  | (r, p1, c) =>
    if r < 0 then (r, dns_packet_rewind p1 saved, [])
    else
      match dns_packet_read p1 c with
      | (r2, p2, start) =>
        if r2 < 0 then (r2, dns_packet_rewind p2 saved, [])
        else
          let t := bytesAt p2 start c
          if 0 ∈ t then (-EBADMSG, dns_packet_rewind p2 saved, [])
          else if !utf8_is_valid t then (-EBADMSG, dns_packet_rewind p2 saved, [])
          else (0, p2, t)

/-- dns_packet_read_raw_string: 1-byte length plus raw body; rewinds on
failure. -/
def dns_packet_read_raw_string (p : DnsPacket) : Int × DnsPacket × List Nat :=
  let saved := p.rindex
  match dns_packet_read_uint8 p with
  | (r, p1, c) =>
    if r < 0 then (r, dns_packet_rewind p1 saved, [])
    else
      match dns_packet_read p1 c with
      | (r2, p2, start) =>
        if r2 < 0 then (r2, dns_packet_rewind p2 saved, [])
        else (0, p2, bytesAt p2 start c)

/-- The label/pointer loop of dns_packet_read_name.  `jump_barrier` is
the lowest offset encountered so far on the decode path; `after_rindex`
is the cursor position just past the first pointer (0 = not yet set);
`acc` collects the labels read so far.  One fuel unit per iteration;
`none` = the loop did not finish within the fuel.  Returns
(status, packet, after_rindex, labels); the caller rewinds on failure
(the C `goto fail`). -/
def readNameLoop (p : DnsPacket) (ac : Bool) (jump_barrier after_rindex : Nat)
    (acc : DnsName) : Nat → Option (Int × DnsPacket × Nat × DnsName)
  | 0 => none
  | fuel + 1 =>
    match dns_packet_read_uint8 p with
    | (r, p1, c) =>
      if r < 0 then some (r, p1, after_rindex, acc)
      else if c = 0 then some (0, p1, after_rindex, acc)
      else if c ≤ 63 then
        match dns_packet_read p1 c with
        | (r2, p2, start) =>
          if r2 < 0 then some (r2, p2, after_rindex, acc)
          else readNameLoop p2 ac jump_barrier after_rindex (acc ++ [bytesAt p2 start c]) fuel
      else if ac ∧ 192 ≤ c then
        match dns_packet_read_uint8 p1 with
        | (r2, p2, d) =>
          if r2 < 0 then some (r2, p2, after_rindex, acc)
          else
            let ptr := c % 64 * 256 + d
            if ptr < DNS_PACKET_HEADER_SIZE ∨ ptr ≥ jump_barrier then
              some (-EBADMSG, p2, after_rindex, acc)
            else
              let ar := if after_rindex = 0 then p2.rindex else after_rindex
              readNameLoop { p2 with rindex := ptr } ac ptr ar acc fuel
      else some (-EBADMSG, p1, after_rindex, acc)

/-- dns_packet_read_name: decode a (possibly compressed) name starting
at `rindex`.  Compression is honoured only when allowed and not refused
by the packet; the jump barrier starts at the name's own offset.  On
success the cursor continues past the first pointer; on failure it is
rewound to the pre-call position.  The label escaping of the C code is
the identity on the label-list representation. -/
def dns_packet_read_name (p : DnsPacket) (allow_compression : Bool) (fuel : Nat) :
    Option (Int × DnsPacket × Option DnsName) :=
  let ac := if p.refuse_compression then false else allow_compression
  let saved := p.rindex
  match readNameLoop p ac p.rindex 0 [] fuel with
  | none => none
  | some (r, p1, after_rindex, acc) =>
    if r < 0 then some (r, dns_packet_rewind p1 saved, none)
    else
      let p2 := if after_rindex ≠ 0 then { p1 with rindex := after_rindex } else p1
      some (0, p2, some acc)

/-- Fuel that bounds any terminating run of the name decoder: at most
`size` literal labels between jumps and at most `size` jumps. -/
def nameFuel (p : DnsPacket) : Nat :=
  (p.size + 2) * (p.size + 2)

/-- Insert a type into the bitmap (bitmap_set, basic/bitmap.c; the
Bitmap is modelled as the list of its members). -/
def bitmap_set (b : List Nat) (n : Nat) : List Nat :=
  if n ∈ b then b else b ++ [n]

/-- The `while (bitmask)` loop of dns_packet_read_type_window for one
bitmap byte `b`.  Exactly as in the C code, a set bit whose type is a
pseudo-type `continue`s WITHOUT advancing `bit` or `bitmask`, so the
loop never terminates on such a byte; `none` = out of fuel.  `bit` is a
uint8_t in C, hence the `% 256` where it enters the type value.
Returns (final bit counter, bitmap). -/
def bitLoopF (window b bit bitmask : Nat) (acc : List Nat) :
    Nat → Option (Nat × List Nat)
  | 0 => none
  | fuel + 1 =>
    if bitmask = 0 then some (bit, acc)
    else if b &&& bitmask ≠ 0 then
      let n := window * 256 + bit % 256
      if dns_type_is_pseudo n then bitLoopF window b bit bitmask acc fuel
      else bitLoopF window b (bit + 1) (bitmask / 2) (bitmap_set acc n) fuel
    else bitLoopF window b (bit + 1) (bitmask / 2) acc fuel

/-- The per-byte `for` loop of dns_packet_read_type_window: a zero byte
clears `found` and skips 8 bits; a non-zero byte sets `found` and runs
the bit loop from bitmask 0x80.  Eight productive steps plus the final
test need 9 fuel units, which is what every terminating run of the C
loop uses.  Returns (found, bitmap); `none` = the bit loop diverged. -/
def windowBytesLoop (window : Nat) (bytes : List Nat) (bit : Nat) (found : Bool)
    (acc : List Nat) : Option (Bool × List Nat) :=
  match bytes with
  | [] => some (found, acc)
  | b :: rest =>
    if b = 0 then windowBytesLoop window rest (bit + 8) false acc
    else
      match bitLoopF window b bit 128 acc 9 with
      | none => none
      | some (bit2, acc2) => windowBytesLoop window rest bit2 true acc2

/-- dns_packet_read_type_window: decode one `[window][length][bitmap]`
group into the accumulated type bitmap.  A length outside 1..32, and a
window whose LAST examined byte set no bit (`found` is reset by every
zero byte), return -EBADMSG WITHOUT rewinding (the C plain `return`);
short reads rewind.  `none` = the C loop diverges (pseudo-type bit). -/
def dns_packet_read_type_window (p : DnsPacket) (types : List Nat) :
    Option (Int × DnsPacket × List Nat) :=
  let saved := p.rindex
  match dns_packet_read_uint8 p with
  | (r, p1, window) =>
    if r < 0 then some (r, dns_packet_rewind p1 saved, types)
    else
      match dns_packet_read_uint8 p1 with
      | (r2, p2, length) =>
        if r2 < 0 then some (r2, dns_packet_rewind p2 saved, types)
        else if length = 0 ∨ length > 32 then some (-EBADMSG, p2, types)
        else
          match dns_packet_read p2 length with
          | (r3, p3, start) =>
            if r3 < 0 then some (r3, dns_packet_rewind p3 saved, types)
            else
              match windowBytesLoop window (bytesAt p3 start length) 0 false types with
              | none => none
              | some (found, types2) =>
                if !found then some (-EBADMSG, p3, types2)
                else some (0, p3, types2)

/-- The window loop of dns_packet_read_type_windows; one fuel unit per
window (each decoded window consumes at least two bytes, so `size + 1`
windows never occur in a terminating run). -/
def readTypeWindowsLoop (p : DnsPacket) (types : List Nat) (endIdx : Nat) :
    Nat → Option (Int × DnsPacket × List Nat)
  | 0 => none
  | fuel + 1 =>
    if p.rindex < endIdx then
      match dns_packet_read_type_window p types with
      | none => none
      | some (r, p1, t1) =>
        if r < 0 then some (r, p1, t1)
        else if p1.rindex > endIdx then some (-EBADMSG, p1, t1)
        else readTypeWindowsLoop p1 t1 endIdx fuel
    else some (0, p, types)

/-- dns_packet_read_type_windows: decode windows until exactly `size`
bytes are consumed; any over- or under-shoot is -EBADMSG; failures
rewind to the pre-call position.  `saved + size` is size_t arithmetic
(an underflowed `size` from the caller wraps back to a small end
offset, exactly as in C). -/
def dns_packet_read_type_windows (p : DnsPacket) (types : List Nat) (size : Nat) :
    Option (Int × DnsPacket × List Nat) :=
  let saved := p.rindex
  let endIdx := (saved + size) % SIZE_T_MOD
  match readTypeWindowsLoop p types endIdx (size + 1) with
  | none => none
  | some (r, p1, t1) =>
    if r < 0 then some (r, dns_packet_rewind p1 saved, t1)
    else if p1.rindex ≠ endIdx then some (-EBADMSG, dns_packet_rewind p1 saved, t1)
    else some (0, p1, t1)

/-- dns_packet_read_key: name, type, class; for mDNS, a non-OPT record
whose class has the cache-flush bit (0x8000) set yields the class with
the bit cleared plus cache_flush = true.  Rewinds on failure.  Returns
(status, packet, (key, cache_flush)). -/
def dns_packet_read_key (p : DnsPacket) :
    Option (Int × DnsPacket × Option (DnsResourceKey × Bool)) :=
  let saved := p.rindex
  match dns_packet_read_name p true (nameFuel p) with
  | none => none
  | some (r, p1, oname) =>
    if r < 0 then some (r, dns_packet_rewind p1 saved, none)
    else
      match dns_packet_read_uint16 p1 with
      | (r2, p2, ty) =>
        if r2 < 0 then some (r2, dns_packet_rewind p2 saved, none)
        else
          match dns_packet_read_uint16 p2 with
          | (r3, p3, cls) =>
            if r3 < 0 then some (r3, dns_packet_rewind p3 saved, none)
            else
              let flush :=
                p.protocol = DnsProtocol.mdns ∧ ty ≠ DNS_TYPE_OPT ∧
                  cls &&& MDNS_RR_CACHE_FLUSH ≠ 0
              let cls2 := if flush then cls &&& 32767 else cls
              some (0, p3,
                some ({ name := oname.getD [], type := ty, rclass := cls2 },
                  decide flush))

/-- loc_size_ok: LOC size/precision octet validation (mantissa and
exponent nibbles each at most 9, and a zero mantissa forces a zero
exponent). -/
def loc_size_ok (size : Nat) : Bool :=
  let m := size % 256 / 16
  let e := size % 16
  decide (m ≤ 9 ∧ e ≤ 9 ∧ (m > 0 ∨ e = 0))

/-- size_t subtraction `a - b` with C wrap-around (underflow yields a
huge value, as in `rdlength - 4` for a short rdata). -/
def subSizeT (a b : Nat) : Nat :=
  if b ≤ a then a - b else SIZE_T_MOD - (b - a) % SIZE_T_MOD

/-- The TXT/SPF item loop of dns_packet_read_rr.  NOTE: a failing
dns_packet_read_raw_string makes the C code `return r` directly - NOT
`goto fail` - so the packet keeps the cursor at the start of the failed
string (Bool result: true = bare return taken).  One fuel unit per
item. -/
def readTxtLoop (p : DnsPacket) (endIdx : Nat) (items : List (List Nat)) :
    Nat → Option (Int × DnsPacket × List (List Nat) × Bool)
  | 0 => none
  | fuel + 1 =>
    if p.rindex < endIdx then
      match dns_packet_read_raw_string p with
      | (r, p1, data) =>
        if r < 0 then some (r, p1, items, true)
        else readTxtLoop p1 endIdx (items ++ [data]) fuel
    else some (0, p, items, false)

/-- The rdata-decoder dispatch of dns_packet_read_rr.  Returns (status,
packet, rdata, unparseable, bare): `bare` marks the TXT error path that
returns without the common rewind.  `none` = a decode loop diverged. -/
def readRRData (p : DnsPacket) (typ rdlength offset : Nat) :
    Option (Int × DnsPacket × RData × Bool × Bool) :=
  if typ = DNS_TYPE_SRV then
    match dns_packet_read_uint16 p with
    | (r, p1, priority) =>
      if r < 0 then some (r, p1, .generic [], false, false)
      else
        match dns_packet_read_uint16 p1 with
        | (r2, p2, weight) =>
          if r2 < 0 then some (r2, p2, .generic [], false, false)
          else
            match dns_packet_read_uint16 p2 with
            | (r3, p3, port) =>
              if r3 < 0 then some (r3, p3, .generic [], false, false)
              else
                match dns_packet_read_name p3 true (nameFuel p3) with
                | none => none
                | some (r4, p4, oname) =>
                  some (r4, p4, .srv priority weight port (oname.getD []), false, false)
  else if typ = DNS_TYPE_PTR ∨ typ = DNS_TYPE_NS ∨ typ = DNS_TYPE_CNAME ∨
      typ = DNS_TYPE_DNAME then
    match dns_packet_read_name p true (nameFuel p) with
    | none => none
    | some (r, p1, oname) => some (r, p1, .ptr (oname.getD []), false, false)
  else if typ = DNS_TYPE_HINFO then
    match dns_packet_read_string p with
    | (r, p1, cpu) =>
      if r < 0 then some (r, p1, .generic [], false, false)
      else
        match dns_packet_read_string p1 with
        | (r2, p2, os) => some (r2, p2, .hinfo cpu os, false, false)
  else if typ = DNS_TYPE_SPF ∨ typ = DNS_TYPE_TXT then
    if rdlength ≤ 0 then some (0, p, .txt [[]], false, false)
    else
      match readTxtLoop p (offset + rdlength) [] (rdlength + 1) with
      | none => none
      | some (r, p1, items, bare) => some (r, p1, .txt items, false, bare)
  else if typ = DNS_TYPE_A then
    match dns_packet_read_blob p 4 with
    | (r, p1, ad) => some (r, p1, .a ad, false, false)
  else if typ = DNS_TYPE_AAAA then
    match dns_packet_read_blob p 16 with
    | (r, p1, ad) => some (r, p1, .aaaa ad, false, false)
  else if typ = DNS_TYPE_SOA then
    match dns_packet_read_name p true (nameFuel p) with
    | none => none
    | some (r, p1, omname) =>
      if r < 0 then some (r, p1, .generic [], false, false)
      else
        match dns_packet_read_name p1 true (nameFuel p1) with
        | none => none
        | some (r2, p2, orname) =>
          if r2 < 0 then some (r2, p2, .generic [], false, false)
          else
            match dns_packet_read_uint32 p2 with
            | (r3, p3, serial) =>
              if r3 < 0 then some (r3, p3, .generic [], false, false)
              else
                match dns_packet_read_uint32 p3 with
                | (r4, p4, refresh) =>
                  if r4 < 0 then some (r4, p4, .generic [], false, false)
                  else
                    match dns_packet_read_uint32 p4 with
                    | (r5, p5, retry) =>
                      if r5 < 0 then some (r5, p5, .generic [], false, false)
                      else
                        match dns_packet_read_uint32 p5 with
                        | (r6, p6, expire) =>
                          if r6 < 0 then some (r6, p6, .generic [], false, false)
                          else
                            match dns_packet_read_uint32 p6 with
                            | (r7, p7, minimum) =>
                              some (r7, p7,
                                .soa (omname.getD []) (orname.getD [])
                                  serial refresh retry expire minimum, false, false)
  else if typ = DNS_TYPE_MX then
    match dns_packet_read_uint16 p with
    | (r, p1, priority) =>
      if r < 0 then some (r, p1, .generic [], false, false)
      else
        match dns_packet_read_name p1 true (nameFuel p1) with
        | none => none
        | some (r2, p2, oname) =>
          some (r2, p2, .mx priority (oname.getD []), false, false)
  else if typ = DNS_TYPE_LOC then
    match dns_packet_read_uint8 p with
    | (r, p1, t) =>
      if r < 0 then some (r, p1, .generic [], false, false)
      else if t = 0 then
        match dns_packet_read_uint8 p1 with
        | (r2, p2, sz) =>
          if r2 < 0 then some (r2, p2, .generic [], false, false)
          else if !loc_size_ok sz then some (-EBADMSG, p2, .generic [], false, false)
          else
            match dns_packet_read_uint8 p2 with
            | (r3, p3, horiz) =>
              if r3 < 0 then some (r3, p3, .generic [], false, false)
              else if !loc_size_ok horiz then
                some (-EBADMSG, p3, .generic [], false, false)
              else
                match dns_packet_read_uint8 p3 with
                | (r4, p4, vert) =>
                  if r4 < 0 then some (r4, p4, .generic [], false, false)
                  else if !loc_size_ok vert then
                    some (-EBADMSG, p4, .generic [], false, false)
                  else
                    match dns_packet_read_uint32 p4 with
                    | (r5, p5, lat) =>
                      if r5 < 0 then some (r5, p5, .generic [], false, false)
                      else
                        match dns_packet_read_uint32 p5 with
                        | (r6, p6, lon) =>
                          if r6 < 0 then some (r6, p6, .generic [], false, false)
                          else
                            match dns_packet_read_uint32 p6 with
                            | (r7, p7, alt) =>
                              some (r7, p7, .loc 0 sz horiz vert lat lon alt,
                                false, false)
      else
        match dns_packet_read_memdup (dns_packet_rewind p1 (p1.rindex - 1)) rdlength with
        | (r2, p2, d) => some (r2, p2, .generic d, true, false)
  else if typ = DNS_TYPE_DS then
    match dns_packet_read_uint16 p with
    | (r, p1, key_tag) =>
      if r < 0 then some (r, p1, .generic [], false, false)
      else
        match dns_packet_read_uint8 p1 with
        | (r2, p2, algorithm) =>
          if r2 < 0 then some (r2, p2, .generic [], false, false)
          else
            match dns_packet_read_uint8 p2 with
            | (r3, p3, digest_type) =>
              if r3 < 0 then some (r3, p3, .generic [], false, false)
              else
                match dns_packet_read_memdup p3 (subSizeT rdlength 4) with
                | (r4, p4, digest) =>
                  if r4 < 0 then some (r4, p4, .generic [], false, false)
                  else if digest.length = 0 then
                    some (-EBADMSG, p4, .generic [], false, false)
                  else
                    some (0, p4, .ds key_tag algorithm digest_type digest,
                      false, false)
  else if typ = DNS_TYPE_SSHFP then
    match dns_packet_read_uint8 p with
    | (r, p1, algorithm) =>
      if r < 0 then some (r, p1, .generic [], false, false)
      else
        match dns_packet_read_uint8 p1 with
        | (r2, p2, fptype) =>
          if r2 < 0 then some (r2, p2, .generic [], false, false)
          else
            match dns_packet_read_memdup p2 (subSizeT rdlength 2) with
            | (r3, p3, fingerprint) =>
              if fingerprint.length = 0 then
                some (-EBADMSG, p3, .generic [], false, false)
              else
                some (r3, p3, .sshfp algorithm fptype fingerprint, false, false)
  else if typ = DNS_TYPE_DNSKEY then
    match dns_packet_read_uint16 p with
    | (r, p1, flags) =>
      if r < 0 then some (r, p1, .generic [], false, false)
      else
        match dns_packet_read_uint8 p1 with
        | (r2, p2, protocol) =>
          if r2 < 0 then some (r2, p2, .generic [], false, false)
          else
            match dns_packet_read_uint8 p2 with
            | (r3, p3, algorithm) =>
              if r3 < 0 then some (r3, p3, .generic [], false, false)
              else
                match dns_packet_read_memdup p3 (subSizeT rdlength 4) with
                | (r4, p4, key) =>
                  if key.length = 0 then
                    some (-EBADMSG, p4, .generic [], false, false)
                  else
                    some (r4, p4, .dnskey flags protocol algorithm key, false, false)
  else if typ = DNS_TYPE_RRSIG then
    match dns_packet_read_uint16 p with
    | (r, p1, type_covered) =>
      if r < 0 then some (r, p1, .generic [], false, false)
      else
        match dns_packet_read_uint8 p1 with
        | (r2, p2, algorithm) =>
          if r2 < 0 then some (r2, p2, .generic [], false, false)
          else
            match dns_packet_read_uint8 p2 with
            | (r3, p3, labels) =>
              if r3 < 0 then some (r3, p3, .generic [], false, false)
              else
                match dns_packet_read_uint32 p3 with
                | (r4, p4, original_ttl) =>
                  if r4 < 0 then some (r4, p4, .generic [], false, false)
                  else
                    match dns_packet_read_uint32 p4 with
                    | (r5, p5, expiration) =>
                      if r5 < 0 then some (r5, p5, .generic [], false, false)
                      else
                        match dns_packet_read_uint32 p5 with
                        | (r6, p6, inception) =>
                          if r6 < 0 then some (r6, p6, .generic [], false, false)
                          else
                            match dns_packet_read_uint16 p6 with
                            | (r7, p7, key_tag) =>
                              if r7 < 0 then some (r7, p7, .generic [], false, false)
                              else
                                match dns_packet_read_name p7 false (nameFuel p7) with
                                | none => none
                                | some (r8, p8, osigner) =>
                                  if r8 < 0 then
                                    some (r8, p8, .generic [], false, false)
                                  else
                                    match dns_packet_read_memdup p8
                                        (subSizeT (offset + rdlength) p8.rindex) with
                                    | (r9, p9, signature) =>
                                      if signature.length = 0 then
                                        some (-EBADMSG, p9, .generic [], false, false)
                                      else
                                        some (r9, p9,
                                          .rrsig type_covered algorithm labels
                                            original_ttl expiration inception key_tag
                                            (osigner.getD []) signature, false, false)
  else if typ = DNS_TYPE_NSEC then
    match dns_packet_read_name p (p.protocol = DnsProtocol.mdns) (nameFuel p) with
    | none => none
    | some (r, p1, oname) =>
      if r < 0 then some (r, p1, .generic [], false, false)
      else
        match dns_packet_read_type_windows p1 []
            (subSizeT (offset + rdlength) p1.rindex) with
        | none => none
        | some (r2, p2, types) =>
          some (r2, p2, .nsec (oname.getD []) types, false, false)
  else if typ = DNS_TYPE_NSEC3 then
    match dns_packet_read_uint8 p with
    | (r, p1, algorithm) =>
      if r < 0 then some (r, p1, .generic [], false, false)
      else
        match dns_packet_read_uint8 p1 with
        | (r2, p2, flags) =>
          if r2 < 0 then some (r2, p2, .generic [], false, false)
          else
            match dns_packet_read_uint16 p2 with
            | (r3, p3, iterations) =>
              if r3 < 0 then some (r3, p3, .generic [], false, false)
              else
                match dns_packet_read_uint8 p3 with
                | (r4, p4, saltSize) =>
                  if r4 < 0 then some (r4, p4, .generic [], false, false)
                  else
                    match dns_packet_read_memdup p4 saltSize with
                    | (r5, p5, salt) =>
                      if r5 < 0 then some (r5, p5, .generic [], false, false)
                      else
                        match dns_packet_read_uint8 p5 with
                        | (r6, p6, hashSize) =>
                          if r6 < 0 then some (r6, p6, .generic [], false, false)
                          else if hashSize = 0 then
                            some (-EBADMSG, p6, .generic [], false, false)
                          else
                            match dns_packet_read_memdup p6 hashSize with
                            | (r7, p7, next_hashed) =>
                              if r7 < 0 then
                                some (r7, p7, .generic [], false, false)
                              else
                                match dns_packet_read_type_windows p7 []
                                    (subSizeT (offset + rdlength) p7.rindex) with
                                | none => none
                                | some (r8, p8, types) =>
                                  some (r8, p8,
                                    .nsec3 algorithm flags iterations salt
                                      next_hashed types, false, false)
  else
    match dns_packet_read_memdup p rdlength with
    | (r, p1, d) => some (r, p1, .generic d, false, false)

/-- dns_packet_read_rr: key (with class/type validity check), TTL,
RDLENGTH, bounds check, rdata dispatch, then exact-consumption check.
Every failure rewinds to the pre-call cursor EXCEPT the TXT `bare`
path, which returns with the cursor where the failed string began.
Returns (status, packet, (record, cache_flush)). -/
def dns_packet_read_rr (p : DnsPacket) :
    Option (Int × DnsPacket × Option (DnsResourceRecord × Bool)) :=
  let saved := p.rindex
  match dns_packet_read_key p with
  | none => none
  | some (r, p1, okey) =>
    if r < 0 then some (r, dns_packet_rewind p1 saved, none)
    else
      match okey with
      | none => some (-EBADMSG, dns_packet_rewind p1 saved, none)
      | some (key, cache_flush) =>
        if !(dns_class_is_valid_rr key.rclass) || !(dns_type_is_valid_rr key.type) then
          some (-EBADMSG, dns_packet_rewind p1 saved, none)
        else
          match dns_packet_read_uint32 p1 with
          | (r2, p2, ttl) =>
            if r2 < 0 then some (r2, dns_packet_rewind p2 saved, none)
            else
              match dns_packet_read_uint16 p2 with
              | (r3, p3, rdlength) =>
                if r3 < 0 then some (r3, dns_packet_rewind p3 saved, none)
                else if p3.rindex + rdlength > p3.size then
                  some (-EBADMSG, dns_packet_rewind p3 saved, none)
                else
                  let offset := p3.rindex
                  match readRRData p3 key.type rdlength offset with
                  | none => none
                  | some (r4, p4, rdata, unparseable, bare) =>
                    if bare then some (r4, p4, none)
                    else if r4 < 0 then some (r4, dns_packet_rewind p4 saved, none)
                    else if p4.rindex ≠ offset + rdlength then
                      some (-EBADMSG, dns_packet_rewind p4 saved, none)
                    else
                      some (0, p4,
                        some ({ key := key, ttl := ttl, rdata := rdata,
                                unparseable := unparseable }, cache_flush))

/-- Big-endian u16 at a fixed buffer offset (header field access). -/
def packetUint16At (p : DnsPacket) (off : Nat) : Nat :=
  byteAt p off * 256 + byteAt p (off + 1)

/-- Modelled from the spec: the DNS_PACKET_* header macros
(resolved-dns-packet.h): flags u16 at offset 2 laid out as
QR|Opcode(4)|AA|TC|RD|RA|Z|AD|CD|RCODE(4); counts at offsets 4..11. -/
def DNS_PACKET_QR (p : DnsPacket) : Nat := byteAt p 2 / 128 % 2

/-- Header OPCODE (bits 14..11 of the flags word). -/
def DNS_PACKET_OPCODE (p : DnsPacket) : Nat := byteAt p 2 / 8 % 16

/-- Header TC bit. -/
def DNS_PACKET_TC (p : DnsPacket) : Nat := byteAt p 2 / 2 % 2

/-- Header RCODE (low 4 bits of the flags word). -/
def DNS_PACKET_RCODE (p : DnsPacket) : Nat := byteAt p 3 % 16

/-- Header QDCOUNT. -/
def DNS_PACKET_QDCOUNT (p : DnsPacket) : Nat := packetUint16At p 4

/-- Header ANCOUNT. -/
def DNS_PACKET_ANCOUNT (p : DnsPacket) : Nat := packetUint16At p 6

/-- Header NSCOUNT. -/
def DNS_PACKET_NSCOUNT (p : DnsPacket) : Nat := packetUint16At p 8

/-- Header ARCOUNT. -/
def DNS_PACKET_ARCOUNT (p : DnsPacket) : Nat := packetUint16At p 10

/-- Header RRCOUNT = ANCOUNT + NSCOUNT + ARCOUNT. -/
def DNS_PACKET_RRCOUNT (p : DnsPacket) : Nat :=
  DNS_PACKET_ANCOUNT p + DNS_PACKET_NSCOUNT p + DNS_PACKET_ARCOUNT p

/-- dns_packet_validate: header-size bounds; 1 = valid. -/
def dns_packet_validate (p : DnsPacket) : Int :=
  if p.size < DNS_PACKET_HEADER_SIZE then -EBADMSG
  else if p.size > DNS_PACKET_SIZE_MAX then -EBADMSG
  else 1

/-- dns_packet_validate_reply: 0 when not a reply (QR is 0), -EBADMSG
for a non-zero OPCODE, an LLMNR reply with QDCOUNT different from 1, or
an mDNS reply with a non-zero RCODE; 1 otherwise. -/
def dns_packet_validate_reply (p : DnsPacket) : Int :=
  let r := dns_packet_validate p
  if r < 0 then r
  else if DNS_PACKET_QR p ≠ 1 then 0
  else if DNS_PACKET_OPCODE p ≠ 0 then -EBADMSG
  else
    match p.protocol with
    | .llmnr => if DNS_PACKET_QDCOUNT p ≠ 1 then -EBADMSG else 1
    | .mdns => if DNS_PACKET_RCODE p ≠ 0 then -EBADMSG else 1
    | .dns => 1

/-- dns_packet_validate_query: 0 when not a query (QR is 1), -EBADMSG
for a non-zero OPCODE or TC, an LLMNR query with QDCOUNT different from
1 or non-empty answer/authority counts, or an mDNS query with any of
AA/RD/RA/AD/CD/RCODE set; 1 otherwise. -/
def dns_packet_validate_query (p : DnsPacket) : Int :=
  let r := dns_packet_validate p
  if r < 0 then r
  else if DNS_PACKET_QR p ≠ 0 then 0
  else if DNS_PACKET_OPCODE p ≠ 0 then -EBADMSG
  else if DNS_PACKET_TC p ≠ 0 then -EBADMSG
  else
    match p.protocol with
    | .llmnr =>
      if DNS_PACKET_QDCOUNT p ≠ 1 then -EBADMSG
      else if DNS_PACKET_ANCOUNT p > 0 then -EBADMSG
      else if DNS_PACKET_NSCOUNT p > 0 then -EBADMSG
      else 1
    | .mdns =>
      if byteAt p 2 / 4 % 2 ≠ 0 ∨ byteAt p 2 % 2 ≠ 0 ∨ byteAt p 3 / 128 % 2 ≠ 0 ∨
          byteAt p 3 / 32 % 2 ≠ 0 ∨ byteAt p 3 / 16 % 2 ≠ 0 ∨
          DNS_PACKET_RCODE p ≠ 0 then -EBADMSG
      else 1
    | .dns => 1

/-- The question loop of dns_packet_extract: QDCOUNT keys, each with
cache_flush clear and a type valid for queries. -/
def extractQLoop (p : DnsPacket) (acc : List DnsResourceKey) :
    Nat → Option (Int × DnsPacket × List DnsResourceKey)
  | 0 => some (0, p, acc)
  | n + 1 =>
    match dns_packet_read_key p with
    | none => none
    | some (r, p1, okey) =>
      if r < 0 then some (r, p1, acc)
      else
        match okey with
        | none => some (-EBADMSG, p1, acc)
        | some (key, cache_flush) =>
          if cache_flush then some (-EBADMSG, p1, acc)
          else if !dns_type_is_valid_query key.type then some (-EBADMSG, p1, acc)
          else extractQLoop p1 (acc ++ [key]) n

/-- The resource-record loop of dns_packet_extract: record `i` of
`RRCOUNT`.  An OPT record must have a root owner name, must lie in the
Additional section (i at least ANCOUNT + NSCOUNT) and must be the only
one (packet `opt` still unset); it is stored as the packet's `opt` and
NOT added to the answer list.  Any other record is appended to the
answer list with CACHEABLE iff in the Answer section and SHARED_OWNER
iff mDNS with the cache-flush bit clear. -/
def extractRRLoop (p : DnsPacket) (acc : List (DnsResourceRecord × Nat)) (i : Nat) :
    Nat → Option (Int × DnsPacket × List (DnsResourceRecord × Nat))
  | 0 => some (0, p, acc)
  | rem + 1 =>
    match dns_packet_read_rr p with
    | none => none
    | some (r, p1, orr) =>
      if r < 0 then some (r, p1, acc)
      else
        match orr with
        | none => some (-EBADMSG, p1, acc)
        | some (rr, cache_flush) =>
          if rr.key.type = DNS_TYPE_OPT then
            if !dns_name_is_root rr.key.name then some (-EBADMSG, p1, acc)
            else if i < DNS_PACKET_ANCOUNT p1 + DNS_PACKET_NSCOUNT p1 then
              some (-EBADMSG, p1, acc)
            else if p1.opt.isSome then some (-EBADMSG, p1, acc)
            else extractRRLoop { p1 with opt := some rr } acc (i + 1) rem
          else
            let flags :=
              (if i < DNS_PACKET_ANCOUNT p1 then DNS_ANSWER_CACHEABLE else 0) +
                (if p1.protocol = DnsProtocol.mdns ∧ cache_flush = false then
                  DNS_ANSWER_SHARED_OWNER else 0)
            extractRRLoop p1 (acc ++ [(rr, flags)]) (i + 1) rem

/-- dns_packet_extract: idempotent whole-message parse.  Rewinds to the
header end, reads QDCOUNT question keys and RRCOUNT records, installs
question/answer/opt on success, and always restores the original read
cursor. -/
def dns_packet_extract (p : DnsPacket) : Option (Int × DnsPacket) :=
  if p.extracted then some (0, p)
  else
    let saved := p.rindex
    let p0 := dns_packet_rewind p DNS_PACKET_HEADER_SIZE
    let nq := DNS_PACKET_QDCOUNT p0
    match extractQLoop p0 [] nq with
    | none => none
    | some (r, p1, question) =>
      if r < 0 then some (r, dns_packet_rewind p1 saved)
      else
        let nr := DNS_PACKET_RRCOUNT p1
        match extractRRLoop p1 [] 0 nr with
        | none => none
        | some (r2, p2, answer) =>
          if r2 < 0 then some (r2, dns_packet_rewind p2 saved)
          else
            some (0, dns_packet_rewind
              { p2 with
                question := if nq > 0 then some question else none,
                answer := if nr > 0 then some answer else none,
                extracted := true } saved)

/-! Concrete packets used to settle the claims. -/

/-- A packet ingested from a received byte buffer (protocol chosen by
the transport; flags and maps in their initial state). -/
def mkPacket (bytes : List Nat) (proto : DnsProtocol) : DnsPacket :=
  { data := fun i => bytes.getD i 0, size := bytes.length,
    rindex := DNS_PACKET_HEADER_SIZE, allocated := bytes.length,
    protocol := proto, refuse_compression := false, canonical_form := false,
    names := [], question := none, answer := none, opt := none,
    extracted := false }

/-- An all-zero 12-byte header. -/
def hdr0 : List Nat := List.replicate 12 0

/-- A fresh outgoing packet (size = rindex = header size, empty map)
with the given allocation. -/
def freshPacket (alloc : Nat) : DnsPacket :=
  { data := fun _ => 0, size := DNS_PACKET_HEADER_SIZE,
    rindex := DNS_PACKET_HEADER_SIZE, allocated := alloc,
    protocol := DnsProtocol.dns, refuse_compression := false,
    canonical_form := false, names := [], question := none, answer := none,
    opt := none, extracted := false }

/-- C1 input: a pre-sized packet whose allocation admits an over-long
rdata without growing. -/
def bigAllocPacket : DnsPacket := freshPacket 70000

/-- C1 input: a record of an unknown type with a 65536-byte verbatim
rdata, one byte past the RDLENGTH limit. -/
def hugeGenericRR : DnsResourceRecord :=
  { key := { name := [], type := 999, rclass := 1 }, ttl := 0,
    rdata := RData.generic (List.replicate 65536 0), unparseable := false }

/-- C1 intermediate state: after the key of `hugeGenericRR` (root name,
type, class: 5 bytes). -/
def c1p1 : DnsPacket := (dns_packet_append_key bigAllocPacket hugeGenericRR.key).2.1

/-- C1 intermediate state: after the TTL (size 21). -/
def c1p2 : DnsPacket := (dns_packet_append_uint32 c1p1 hugeGenericRR.ttl).2.1

/-- C1 intermediate state: after the RDLENGTH placeholder (size 23, the
placeholder at offset 21). -/
def c1p3 : DnsPacket := (dns_packet_append_uint16 c1p2 0).2.1

/-- C1 intermediate state: after the 65536-byte verbatim rdata
(size 65559). -/
def c1p4 : DnsPacket :=
  let d := storeBytes c1p3.data c1p3.size (List.replicate 65536 0)
  { c1p3 with size := c1p3.size + 65536, data := d }

/-- C2 input: one NSEC type window `[0][6][00 00 00 00 00 40]`; the set
bit is type 41 (OPT), a pseudo-type. -/
def pseudoBitPacket : DnsPacket :=
  mkPacket (hdr0 ++ [0, 6, 0, 0, 0, 0, 0, 64]) DnsProtocol.dns

/-- C3 input: one NSEC type window `[0][2][80 00]`: length 2 in 1..32,
both bytes present, bit 0 set - but the final bitmap byte is zero. -/
def windowTrailingZeroPacket : DnsPacket :=
  mkPacket (hdr0 ++ [0, 2, 128, 0]) DnsProtocol.dns

/-- C3 witness input: one NSEC type window `[0][1][80]` (bit 0 set in
the final byte). -/
def windowOkPacket : DnsPacket :=
  mkPacket (hdr0 ++ [0, 1, 128]) DnsProtocol.dns

/-- C4 input: a TXT record (root owner, class IN, TTL 0) whose one-byte
rdata declares a 255-byte character string that runs past the packet
end. -/
def txtTruncPacket : DnsPacket :=
  mkPacket (hdr0 ++ [0, 0, 16, 0, 1, 0, 0, 0, 0, 0, 1, 255]) DnsProtocol.dns

/-- C5 input: an outgoing packet whose size has already reached 0x4000,
so the next appended label sits at an offset no 14-bit pointer can
express. -/
def mapOverflowPacket : DnsPacket :=
  { data := fun _ => 0, size := 16384, rindex := 12, allocated := 20000,
    protocol := DnsProtocol.dns, refuse_compression := false,
    canonical_form := false, names := [], question := none, answer := none,
    opt := none, extracted := false }

/-- C6 and C10 input (scenario S4): a name that is a compression pointer
to itself at offset 12 (bytes C0 0C). -/
def selfPointerPacket : DnsPacket :=
  mkPacket (hdr0 ++ [192, 12]) DnsProtocol.dns

/-- C7 input (scenario S3): ANCOUNT = 1 and the single Answer record is
an OPT (root owner, class 0x0200, TTL 0, RDLENGTH 0). -/
def optAnswerPacket : DnsPacket :=
  mkPacket ([0, 0, 128, 0, 0, 0, 0, 1, 0, 0, 0, 0] ++
    [0, 0, 41, 2, 0, 0, 0, 0, 0, 0, 0]) DnsProtocol.dns

/-- C7 witness input: the S3 packet rewound to the record section (no
questions, so records begin right after the header). -/
def optAnswerStart : DnsPacket := dns_packet_rewind optAnswerPacket 12

/-- C8 input (scenario S6): an LLMNR reply (QR = 1, OPCODE = 0) with
QDCOUNT = 0. -/
def llmnrBadReplyPacket : DnsPacket :=
  mkPacket [0, 0, 128, 0, 0, 0, 0, 0, 0, 0, 0, 0] DnsProtocol.llmnr

/-- C9 input (scenario S5): an mDNS key with class field 0x8001 (the
cache-flush bit plus class IN). -/
def mdnsFlushKeyPacket : DnsPacket :=
  mkPacket (hdr0 ++ [0, 0, 1, 128, 1]) DnsProtocol.mdns

/-- C9 input: the same bytes ingested as conventional DNS. -/
def dnsFlushKeyPacket : DnsPacket :=
  mkPacket (hdr0 ++ [0, 0, 1, 128, 1]) DnsProtocol.dns

/-- The compression-map invariant the code actually maintains: the
packet is at least a header long and every stored offset points behind
the header and strictly inside the current size. -/
def namesInv (p : DnsPacket) : Prop :=
  DNS_PACKET_HEADER_SIZE ≤ p.size ∧
    ∀ e ∈ p.names, DNS_PACKET_HEADER_SIZE ≤ e.2 ∧ e.2 < p.size

/-- No set bit of bitmap byte `b` (whose first bit is entry `bit` of
window `window`) denotes a pseudo-type. -/
def bytePseudoFree (window b bit : Nat) : Bool :=
  decide (∀ j < 8, b &&& 2 ^ (7 - j) ≠ 0 →
    dns_type_is_pseudo (window * 256 + (bit + j) % 256) = false)

/-- `bytePseudoFree` over a run of bitmap bytes starting at entry
`bit`. -/
def bytesPseudoFree (window : Nat) : List Nat → Nat → Bool
  | [], _ => true
  | b :: rest, bit => bytePseudoFree window b bit && bytesPseudoFree window rest (bit + 8)

/-- The last element of a byte list (0 for the empty list). -/
def lastByte : List Nat → Nat
  | [] => 0
  | [b] => b
  | _ :: b :: rest => lastByte (b :: rest)

/-! Helper lemmas about the primitive operations. -/

theorem extend_ok (p : DnsPacket) (add : Nat) (h : p.size + add ≤ p.allocated) :
    dns_packet_extend p add = (0, { p with size := p.size + add }, p.size) := by
  unfold dns_packet_extend
  rw [if_neg (by omega)]

theorem append_blob_ok (p : DnsPacket) (d : List Nat)
    (h : p.size + d.length ≤ p.allocated) :
    dns_packet_append_blob p d =
      (0, { p with size := p.size + d.length, data := storeBytes p.data p.size d },
        p.size) := by
  unfold dns_packet_append_blob
  rw [extend_ok p d.length h]
  rfl

/-- The verbatim fallback branch of the rdata-encoder dispatch, for a
parseable record of the (unknown) type 999. -/
theorem appendRData_default (p : DnsPacket) (rr : DnsResourceRecord) (d : List Nat)
    (h1 : rr.unparseable = false) (h2 : rr.key.type = 999)
    (h3 : rr.rdata = RData.generic d) :
    appendRData p rr =
      (match dns_packet_append_blob p d with | (r, p1, _) => (r, p1)) := by
  unfold appendRData
  rw [h1, h2, h3]
  rw [if_neg (by simp), if_neg (by decide), if_neg (by decide), if_neg (by decide),
    if_neg (by decide), if_neg (by decide), if_neg (by decide), if_neg (by decide),
    if_neg (by decide), if_neg (by decide), if_neg (by decide), if_neg (by decide),
    if_neg (by decide), if_neg (by decide), if_neg (by decide), if_neg (by decide)]

theorem read_ok (p : DnsPacket) (sz : Nat) (h : p.rindex + sz ≤ p.size)
    (hs : p.size ≤ DNS_PACKET_SIZE_MAX) :
    dns_packet_read p sz = (0, { p with rindex := p.rindex + sz }, p.rindex) := by
  unfold dns_packet_read
  have hlt : p.rindex + sz < SIZE_T_MOD := by
    unfold DNS_PACKET_SIZE_MAX at hs
    unfold SIZE_T_MOD
    omega
  rw [Nat.mod_eq_of_lt hlt, if_neg (by omega)]

theorem read_fail (p : DnsPacket) (sz : Nat) (h : p.size < p.rindex + sz)
    (h2 : p.rindex + sz < SIZE_T_MOD) :
    dns_packet_read p sz = (-EMSGSIZE, p, 0) := by
  unfold dns_packet_read
  rw [Nat.mod_eq_of_lt h2, if_pos (by omega)]

theorem read_uint8_ok (p : DnsPacket) (h : p.rindex + 1 ≤ p.size)
    (hs : p.size ≤ DNS_PACKET_SIZE_MAX) :
    dns_packet_read_uint8 p = (0, { p with rindex := p.rindex + 1 }, byteAt p p.rindex) := by
  unfold dns_packet_read_uint8
  rw [read_ok p 1 h hs]
  rfl

theorem read_uint16_ok (p : DnsPacket) (h : p.rindex + 2 ≤ p.size)
    (hs : p.size ≤ DNS_PACKET_SIZE_MAX) :
    dns_packet_read_uint16 p =
      (0, { p with rindex := p.rindex + 2 },
        byteAt p p.rindex * 256 + byteAt p (p.rindex + 1)) := by
  unfold dns_packet_read_uint16
  rw [read_ok p 2 h hs]
  rfl

theorem byteAt_set_rindex (p : DnsPacket) (k i : Nat) :
    byteAt { p with rindex := k } i = byteAt p i :=
  rfl

/-- One-step unfolding equation for the name-decoder loop. -/
theorem readNameLoop_succ (p : DnsPacket) (ac : Bool) (jb ar : Nat) (acc : DnsName)
    (fuel : Nat) :
    readNameLoop p ac jb ar acc (fuel + 1) =
      match dns_packet_read_uint8 p with
      | (r, p1, c) =>
        if r < 0 then some (r, p1, ar, acc)
        else if c = 0 then some (0, p1, ar, acc)
        else if c ≤ 63 then
          match dns_packet_read p1 c with
          | (r2, p2, start) =>
            if r2 < 0 then some (r2, p2, ar, acc)
            else readNameLoop p2 ac jb ar (acc ++ [bytesAt p2 start c]) fuel
        else if ac ∧ 192 ≤ c then
          match dns_packet_read_uint8 p1 with
          | (r2, p2, d) =>
            if r2 < 0 then some (r2, p2, ar, acc)
            else
              let ptr := c % 64 * 256 + d
              if ptr < DNS_PACKET_HEADER_SIZE ∨ ptr ≥ jb then
                some (-EBADMSG, p2, ar, acc)
              else
                let ar2 := if ar = 0 then p2.rindex else ar
                readNameLoop { p2 with rindex := ptr } ac ptr ar2 acc fuel
        else some (-EBADMSG, p1, ar, acc) :=
  rfl

/-- Unfolding equation for dns_packet_read_name. -/
theorem read_name_eq (p : DnsPacket) (ac : Bool) (fuel : Nat) :
    dns_packet_read_name p ac fuel =
      match readNameLoop p (if p.refuse_compression then false else ac)
          p.rindex 0 [] fuel with
      | none => none
      | some (r, p1, ar, acc) =>
        if r < 0 then some (r, dns_packet_rewind p1 p.rindex, none)
        else some (0, if ar ≠ 0 then { p1 with rindex := ar } else p1, some acc) :=
  rfl

/-! Claim theorems. -/

/-- Claim C4 (code_bug): the claim demands that every failing
dns_packet_read_rr leave `rindex` at its pre-call value, but on
`txtTruncPacket` (a TXT record whose character string overruns the
packet) the read fails with -EMSGSIZE through the C code's bare
`return r` (line 1615) and leaves `rindex` at 23, the start of the
failed string, instead of the pre-call 12. -/
theorem C4_read_rr_txt_failure_keeps_rindex :
    (dns_packet_read_rr txtTruncPacket).map (fun x => (x.1, x.2.1.rindex)) =
        some (-EMSGSIZE, 23) ∧
      txtTruncPacket.rindex = 12 :=
  ⟨rfl, rfl⟩

/-- Claim C1 (code_bug): when the rdata encoders have succeeded but the
resulting RDLENGTH exceeds 0xFFFF, dns_packet_append_rr does truncate
the packet back to its pre-call size, but it returns ENOSPC with the
POSITIVE sign (`r = ENOSPC`, line 1024 - every other error path in the
function uses a negative errno), so the status is NOT negative as the
claim and the spec's error surface require: a caller checking `r < 0`
would treat the truncated packet as successfully appended. -/
theorem C1_append_rr_rdata_too_large :
    ∀ (p : DnsPacket) (rr : DnsResourceRecord) (p1 p2 p3 p4 : DnsPacket)
      (s1 s2 rdoff : Nat),
      dns_packet_append_key p rr.key = (0, p1, s1) →
      dns_packet_append_uint32 p1 rr.ttl = (0, p2, s2) →
      dns_packet_append_uint16 p2 0 = (0, p3, rdoff) →
      appendRData p3 rr = (0, p4) →
      p4.size - rdoff - 2 > 0xFFFF →
      dns_packet_append_rr p rr = (ENOSPC, dns_packet_truncate p4 p.size, 0, 0) ∧
        0 < ENOSPC := by
  intro p rr p1 p2 p3 p4 s1 s2 rdoff hk ht hpl hrd hbig
  unfold dns_packet_append_rr
  rw [hk]
  dsimp only
  rw [if_neg (by norm_num), ht]
  dsimp only
  rw [if_neg (by norm_num), hpl]
  dsimp only
  rw [if_neg (by norm_num), hrd]
  dsimp only
  rw [if_neg (by norm_num), if_pos hbig]
  exact ⟨rfl, by norm_num [ENOSPC]⟩

/-- Claim C1 witness: the failing input evaluated - a 65536-byte
verbatim rdata appended to a fresh packet with a 70000-byte allocation
yields the positive status 28 (ENOSPC) with the packet truncated back
to the bare header. -/
theorem C1_witness :
    (dns_packet_append_rr bigAllocPacket hugeGenericRR).1 = ENOSPC ∧
      0 < (dns_packet_append_rr bigAllocPacket hugeGenericRR).1 ∧
      (dns_packet_append_rr bigAllocPacket hugeGenericRR).2.1.size = 12 := by
  have hlen : (List.replicate 65536 (0 : Nat)).length = 65536 := List.length_replicate 65536 0
  have hblob : dns_packet_append_blob c1p3 (List.replicate 65536 0) = (0, c1p4, 23) := by
    rw [append_blob_ok c1p3 (List.replicate 65536 0) (by rw [hlen]; decide)]
    rw [hlen]
    rfl
  have hrd : appendRData c1p3 hugeGenericRR = (0, c1p4) := by
    rw [appendRData_default c1p3 hugeGenericRR (List.replicate 65536 0) rfl rfl rfl]
    rw [hblob]
  have hbig : c1p4.size - 21 - 2 > 0xFFFF := by
    show c1p3.size + 65536 - 21 - 2 > 0xFFFF
    decide
  have h := C1_append_rr_rdata_too_large bigAllocPacket hugeGenericRR c1p1 c1p2 c1p3
    c1p4 _ _ _ rfl rfl rfl hrd hbig
  refine ⟨?_, ?_, ?_⟩
  · rw [h.1]
  · rw [h.1]
    exact h.2
  · rw [h.1]
    rfl

/-- Claim C2 (code_bug): the claim says the window decoder terminates
and merely skips pseudo-type bits.  In the code the `continue` for a
pseudo-type bit skips the `bit++ / bitmask >>= 1` update, so the
`while (bitmask)` loop never terminates once a set bit denotes a
pseudo-type: for EVERY fuel the loop model returns `none`, and the
window `[0][6][00 00 00 00 00 40]` (bit 41 = OPT set) makes
dns_packet_read_type_window diverge. -/
theorem C2_type_window_pseudo_type_diverges :
    (∀ (window b bit bitmask : Nat) (acc : List Nat) (fuel : Nat),
        bitmask ≠ 0 → b &&& bitmask ≠ 0 →
        dns_type_is_pseudo (window * 256 + bit % 256) = true →
        bitLoopF window b bit bitmask acc fuel = none) ∧
      dns_packet_read_type_window pseudoBitPacket [] = none := by
  constructor
  · intro window b bit bitmask acc fuel h1 h2 h3
    induction fuel with
    | zero => rfl
    | succ n ih =>
      simp only [bitLoopF, if_neg h1, if_pos h2, h3, if_pos]
      exact ih
  · rfl

/-- Claim C2 witness: the loop state reached inside the diverging
window of `pseudoBitPacket` (window 0, byte 0x40, bit counter 41,
bitmask 0x40), instantiated at fuel 5. -/
theorem C2_witness :
    bitLoopF 0 64 41 64 [] 5 = none ∧ dns_type_is_pseudo (0 * 256 + 41 % 256) = true :=
  ⟨C2_type_window_pseudo_type_diverges.1 0 64 41 64 [] 5 (by decide) (by decide)
      (by decide),
    by decide⟩

/-- Claim C10 (confirmed): with compression disallowed by the caller or
refused by the packet, a length byte with the two top bits set (192 and
above) is never followed as a pointer: dns_packet_read_name fails with
-EBADMSG (FORMAT_ERROR) and the returned packet has its read cursor at
the pre-call position (it IS the input packet). -/
theorem C10_pointer_rejected_without_compression :
    ∀ (p : DnsPacket) (ac : Bool) (fuel : Nat),
      p.refuse_compression = true ∨ ac = false →
      p.rindex + 1 ≤ p.size → p.size ≤ DNS_PACKET_SIZE_MAX →
      192 ≤ byteAt p p.rindex →
      dns_packet_read_name p ac (fuel + 1) = some (-EBADMSG, p, none) := by
  intro p ac fuel hac h1 hs hc
  have heff : (if p.refuse_compression then false else ac) = false := by
    rcases hac with h | h
    · simp [h]
    · simp [h]
  have hz : ¬ byteAt p p.rindex = 0 := by omega
  have h63 : ¬ byteAt p p.rindex ≤ 63 := by omega
  have hstep : readNameLoop p false p.rindex 0 [] (fuel + 1) =
      some (-EBADMSG, { p with rindex := p.rindex + 1 }, 0, []) := by
    rw [readNameLoop_succ]
    rw [read_uint8_ok p h1 hs]
    dsimp only
    rw [if_neg (by norm_num), if_neg hz, if_neg h63, if_neg (by simp)]
  rw [read_name_eq, heff, hstep]
  dsimp only
  rw [if_pos (show (-EBADMSG : Int) < 0 by norm_num [EBADMSG])]
  rfl

/-- Claim C10 witness: the S4 self-pointer packet read with compression
disallowed fails with FORMAT_ERROR and an unchanged cursor. -/
theorem C10_witness :
    dns_packet_read_name selfPointerPacket false 10 =
      some (-EBADMSG, selfPointerPacket, none) :=
  C10_pointer_rejected_without_compression selfPointerPacket false 9 (Or.inr rfl)
    (by decide) (by decide) (by decide)

/-- One-step unfolding equation for the bitmask loop of the window
decoder. -/
theorem bitLoopF_succ (w b bit bitmask : Nat) (acc : List Nat) (fuel : Nat) :
    bitLoopF w b bit bitmask acc (fuel + 1) =
      (if bitmask = 0 then some (bit, acc)
      else if b &&& bitmask ≠ 0 then
        if dns_type_is_pseudo (w * 256 + bit % 256) then
          bitLoopF w b bit bitmask acc fuel
        else
          bitLoopF w b (bit + 1) (bitmask / 2)
            (bitmap_set acc (w * 256 + bit % 256)) fuel
      else bitLoopF w b (bit + 1) (bitmask / 2) acc fuel) :=
  rfl

/-- The bitmask loop terminates on a power-of-two mask whenever no set
bit it will visit denotes a pseudo-type, consuming one fuel unit per
bit plus one for the final test, and leaves the bit counter advanced
past the mask. -/
theorem bitLoopF_pow2 :
    ∀ (k : Nat) (w b bit : Nat) (acc : List Nat) (fuel : Nat),
      k + 2 ≤ fuel →
      (∀ j, j ≤ k → b &&& 2 ^ (k - j) ≠ 0 →
        dns_type_is_pseudo (w * 256 + (bit + j) % 256) = false) →
      ∃ acc2, bitLoopF w b bit (2 ^ k) acc fuel = some (bit + (k + 1), acc2) := by
  intro k
  induction k with
  | zero =>
    intro w b bit acc fuel hfuel h
    obtain ⟨f, rfl⟩ : ∃ f, fuel = f + 2 := ⟨fuel - 2, by omega⟩
    rw [show f + 2 = (f + 1) + 1 from rfl, bitLoopF_succ]
    rw [if_neg (by norm_num)]
    by_cases hb : b &&& 2 ^ 0 ≠ 0
    · rw [if_pos hb]
      have hps : dns_type_is_pseudo (w * 256 + bit % 256) = false := by
        have := h 0 (le_refl 0) (by simpa using hb)
        simpa using this
      rw [hps, if_neg (by simp)]
      rw [show (2 : Nat) ^ 0 / 2 = 0 from rfl, bitLoopF_succ, if_pos rfl]
      exact ⟨_, rfl⟩
    · rw [if_neg hb]
      rw [show (2 : Nat) ^ 0 / 2 = 0 from rfl, bitLoopF_succ, if_pos rfl]
      exact ⟨_, rfl⟩
  | succ k ih =>
    intro w b bit acc fuel hfuel h
    obtain ⟨f, rfl⟩ : ∃ f, fuel = f + 1 := ⟨fuel - 1, by omega⟩
    have hpow : (0 : Nat) < 2 ^ (k + 1) := Nat.pos_pow_of_pos _ (by norm_num)
    have hdiv : (2 : Nat) ^ (k + 1) / 2 = 2 ^ k := by
      rw [pow_succ]
      exact Nat.mul_div_cancel _ (by norm_num)
    have hshift : ∀ j, j ≤ k → b &&& 2 ^ (k - j) ≠ 0 →
        dns_type_is_pseudo (w * 256 + (bit + 1 + j) % 256) = false := by
      intro j hj hbj
      have := h (j + 1) (by omega) (by
        rw [show k + 1 - (j + 1) = k - j from by omega]
        exact hbj)
      rw [show bit + 1 + j = bit + (j + 1) from by omega]
      exact this
    rw [bitLoopF_succ, if_neg (by omega)]
    by_cases hb : b &&& 2 ^ (k + 1) ≠ 0
    · rw [if_pos hb]
      have hps : dns_type_is_pseudo (w * 256 + bit % 256) = false := by
        have := h 0 (Nat.zero_le _) (by simpa using hb)
        simpa using this
      rw [hps, if_neg (by simp)]
      rw [hdiv]
      obtain ⟨acc2, hrec⟩ := ih w b (bit + 1)
        (bitmap_set acc (w * 256 + bit % 256)) f (by omega) hshift
      refine ⟨acc2, ?_⟩
      rw [hrec, show bit + 1 + (k + 1) = bit + (k + 1 + 1) from by omega]
    · rw [if_neg hb, hdiv]
      obtain ⟨acc2, hrec⟩ := ih w b (bit + 1) acc f (by omega) hshift
      refine ⟨acc2, ?_⟩
      rw [hrec, show bit + 1 + (k + 1) = bit + (k + 1 + 1) from by omega]

/-- With no pseudo-type bits set anywhere, the per-byte window loop
terminates and reports `found` = true exactly when the LAST bitmap byte
is non-zero (every zero byte resets `found`). -/
theorem windowBytesLoop_spec :
    ∀ (bytes : List Nat) (w bit : Nat) (f : Bool) (acc : List Nat),
      bytesPseudoFree w bytes bit = true →
      ∃ acc2, windowBytesLoop w bytes bit f acc =
        some ((if bytes.isEmpty then f else decide (lastByte bytes ≠ 0)), acc2) := by
  intro bytes
  induction bytes with
  | nil =>
    intro w bit f acc hpf
    exact ⟨acc, rfl⟩
  | cons b rest ih =>
    intro w bit f acc hpf
    have hsplit : bytePseudoFree w b bit = true ∧
        bytesPseudoFree w rest (bit + 8) = true := by
      simpa [bytesPseudoFree, Bool.and_eq_true] using hpf
    obtain ⟨hb1, hb2⟩ := hsplit
    simp only [windowBytesLoop]
    by_cases hb : b = 0
    · rw [if_pos hb]
      obtain ⟨acc2, hrec⟩ := ih w (bit + 8) false acc hb2
      cases rest with
      | nil =>
        refine ⟨acc2, ?_⟩
        rw [hrec, hb]
        rfl
      | cons c cs =>
        refine ⟨acc2, ?_⟩
        rw [hrec, hb]
        rfl
    · rw [if_neg hb]
      have hhyp : ∀ j, j ≤ 7 → b &&& 2 ^ (7 - j) ≠ 0 →
          dns_type_is_pseudo (w * 256 + (bit + j) % 256) = false := by
        have hprop := of_decide_eq_true hb1
        intro j hj hbj
        exact hprop j (by omega) hbj
      obtain ⟨acc2, hbit⟩ := bitLoopF_pow2 7 w b bit acc 9 (by norm_num) hhyp
      rw [show (2 : Nat) ^ 7 = 128 from by norm_num] at hbit
      rw [hbit]
      dsimp only
      obtain ⟨acc3, hrec⟩ := ih w (bit + 8) true acc2 hb2
      cases rest with
      | nil =>
        refine ⟨acc3, ?_⟩
        rw [show bit + (7 + 1) = bit + 8 from rfl, hrec]
        simp [lastByte, hb]
      | cons c cs =>
        refine ⟨acc3, ?_⟩
        rw [show bit + (7 + 1) = bit + 8 from rfl, hrec]
        rfl

theorem bytesAt_set_rindex (p : DnsPacket) (k : Nat) :
    ∀ (n off : Nat), bytesAt { p with rindex := k } off n = bytesAt p off n := by
  intro n
  induction n with
  | zero => intro off; rfl
  | succ m ih =>
    intro off
    simp only [bytesAt, byteAt_set_rindex]
    rw [ih]

theorem lastByte_bytesAt (p : DnsPacket) :
    ∀ (n off : Nat), lastByte (bytesAt p off (n + 1)) = byteAt p (off + n) := by
  intro n
  induction n with
  | zero => intro off; rfl
  | succ m ih =>
    intro off
    show lastByte (byteAt p off :: bytesAt p (off + 1) (m + 1)) = byteAt p (off + (m + 1))
    rw [show bytesAt p (off + 1) (m + 1) =
      byteAt p (off + 1) :: bytesAt p (off + 1 + 1) m from rfl]
    rw [lastByte]
    rw [show byteAt p (off + 1) :: bytesAt p (off + 1 + 1) m =
      bytesAt p (off + 1) (m + 1) from rfl]
    rw [ih (off + 1), show off + 1 + m = off + (m + 1) from by omega]

/-- The two header bytes of a window read and the length test, factored
out of dns_packet_read_type_window. -/
theorem read_type_window_unfold (p : DnsPacket) (types : List Nat)
    (h2 : p.rindex + 2 ≤ p.size) (hs : p.size ≤ DNS_PACKET_SIZE_MAX) :
    dns_packet_read_type_window p types =
      (if byteAt p (p.rindex + 1) = 0 ∨ byteAt p (p.rindex + 1) > 32 then
        some (-EBADMSG, { p with rindex := p.rindex + 1 + 1 }, types)
      else
        match dns_packet_read { p with rindex := p.rindex + 1 + 1 }
            (byteAt p (p.rindex + 1)) with
        | (r3, p3, start) =>
          if r3 < 0 then some (r3, dns_packet_rewind p3 p.rindex, types)
          else
            match windowBytesLoop (byteAt p p.rindex)
                (bytesAt p3 start (byteAt p (p.rindex + 1))) 0 false types with
            | none => none
            | some (found, types2) =>
              if !found then some (-EBADMSG, p3, types2)
              else some (0, p3, types2)) := by
  unfold dns_packet_read_type_window
  rw [read_uint8_ok p (by omega) hs]
  dsimp only
  rw [if_neg (by norm_num)]
  rw [read_uint8_ok { p with rindex := p.rindex + 1 } (by dsimp only; omega) hs]
  dsimp only
  simp only [byteAt_set_rindex]
  rw [if_neg (by norm_num)]

/-- Claim C3 counterexample: the window `[0][2][80 00]` has a length in
1..32, both declared bytes present, and a set bit (0x80 in its first
byte), so the claim demands a successful decode - yet the code returns
FORMAT_ERROR, because `found` is reset by the trailing zero byte. -/
theorem C3_counterexample :
    (dns_packet_read_type_window windowTrailingZeroPacket []).map (fun x => x.1) =
        some (-EBADMSG) ∧
      byteAt windowTrailingZeroPacket 13 = 2 ∧
      byteAt windowTrailingZeroPacket 14 = 128 ∧
      windowTrailingZeroPacket.rindex + 2 + 2 ≤ windowTrailingZeroPacket.size :=
  ⟨rfl, rfl, rfl, by decide⟩

/-- Claim C3 as amended: for a window none of whose set bits denotes a
pseudo-type (otherwise the decoder does not terminate, see C2) and
whose two header bytes are present, dns_packet_read_type_window
returns FORMAT_ERROR (-EBADMSG) iff the declared length is outside
1..32 or the LAST bitmap byte is zero (trailing zero octets are
rejected, not merely windows without any set bit); fewer declared
bytes than remain give OUT_OF_BOUNDS (-EMSGSIZE), not FORMAT_ERROR;
and every other window decodes successfully. -/
theorem C3_window_decode_amended :
    ∀ (p : DnsPacket) (types : List Nat),
      p.rindex + 2 ≤ p.size → p.size ≤ DNS_PACKET_SIZE_MAX →
      bytesPseudoFree (byteAt p p.rindex)
        (bytesAt p (p.rindex + 2) (byteAt p (p.rindex + 1))) 0 = true →
      ((¬ (1 ≤ byteAt p (p.rindex + 1) ∧ byteAt p (p.rindex + 1) ≤ 32) →
          (dns_packet_read_type_window p types).map (fun x => x.1) =
            some (-EBADMSG)) ∧
        (1 ≤ byteAt p (p.rindex + 1) → byteAt p (p.rindex + 1) ≤ 32 →
          p.size < p.rindex + 2 + byteAt p (p.rindex + 1) →
          (dns_packet_read_type_window p types).map (fun x => x.1) =
            some (-EMSGSIZE)) ∧
        (1 ≤ byteAt p (p.rindex + 1) → byteAt p (p.rindex + 1) ≤ 32 →
          p.rindex + 2 + byteAt p (p.rindex + 1) ≤ p.size →
          byteAt p (p.rindex + 1 + byteAt p (p.rindex + 1)) = 0 →
          (dns_packet_read_type_window p types).map (fun x => x.1) =
            some (-EBADMSG)) ∧
        (1 ≤ byteAt p (p.rindex + 1) → byteAt p (p.rindex + 1) ≤ 32 →
          p.rindex + 2 + byteAt p (p.rindex + 1) ≤ p.size →
          byteAt p (p.rindex + 1 + byteAt p (p.rindex + 1)) ≠ 0 →
          (dns_packet_read_type_window p types).map (fun x => x.1) = some 0)) := by
  intro p types h2 hs hpf
  rw [read_type_window_unfold p types h2 hs]
  refine ⟨?_, ?_, ?_, ?_⟩
  · intro hbad
    rw [if_pos (by omega)]
    rfl
  · intro hlo hhi hshort
    rw [if_neg (by omega)]
    rw [read_fail { p with rindex := p.rindex + 1 + 1 } (byteAt p (p.rindex + 1))
      (by dsimp only; omega)
      (by dsimp only; unfold SIZE_T_MOD DNS_PACKET_SIZE_MAX at *; omega)]
    dsimp only
    rw [if_pos (by norm_num [EMSGSIZE])]
    rfl
  · intro hlo hhi hfits hlast
    rw [if_neg (by omega)]
    rw [read_ok { p with rindex := p.rindex + 1 + 1 } (byteAt p (p.rindex + 1))
      (by dsimp only; omega) hs]
    dsimp only
    simp only [bytesAt_set_rindex]
    obtain ⟨acc2, hw⟩ := windowBytesLoop_spec
      (bytesAt p (p.rindex + 1 + 1) (byteAt p (p.rindex + 1)))
      (byteAt p p.rindex) 0 false types
      (by rw [show p.rindex + 1 + 1 = p.rindex + 2 from by omega]; exact hpf)
    rw [hw]
    dsimp only
    obtain ⟨m, hm⟩ : ∃ m, byteAt p (p.rindex + 1) = m + 1 :=
      ⟨byteAt p (p.rindex + 1) - 1, by omega⟩
    have hne : (bytesAt p (p.rindex + 1 + 1) (byteAt p (p.rindex + 1))).isEmpty = false := by
      rw [hm]
      rfl
    have hlb : lastByte (bytesAt p (p.rindex + 1 + 1) (byteAt p (p.rindex + 1))) = 0 := by
      rw [hm, lastByte_bytesAt p m (p.rindex + 1 + 1),
        show p.rindex + 1 + 1 + m = p.rindex + 1 + (m + 1) from by omega, ← hm]
      exact hlast
    have hfound :
        (if (bytesAt p (p.rindex + 1 + 1) (byteAt p (p.rindex + 1))).isEmpty = true
          then false
          else decide
            (lastByte (bytesAt p (p.rindex + 1 + 1) (byteAt p (p.rindex + 1))) ≠ 0)) =
          false := by
      rw [hne, hlb]
      simp
    rw [hfound]
    rfl
  · intro hlo hhi hfits hlast
    rw [if_neg (by omega)]
    rw [read_ok { p with rindex := p.rindex + 1 + 1 } (byteAt p (p.rindex + 1))
      (by dsimp only; omega) hs]
    dsimp only
    simp only [bytesAt_set_rindex]
    obtain ⟨acc2, hw⟩ := windowBytesLoop_spec
      (bytesAt p (p.rindex + 1 + 1) (byteAt p (p.rindex + 1)))
      (byteAt p p.rindex) 0 false types
      (by rw [show p.rindex + 1 + 1 = p.rindex + 2 from by omega]; exact hpf)
    rw [hw]
    dsimp only
    obtain ⟨m, hm⟩ : ∃ m, byteAt p (p.rindex + 1) = m + 1 :=
      ⟨byteAt p (p.rindex + 1) - 1, by omega⟩
    have hne : (bytesAt p (p.rindex + 1 + 1) (byteAt p (p.rindex + 1))).isEmpty = false := by
      rw [hm]
      rfl
    have hlb : lastByte (bytesAt p (p.rindex + 1 + 1) (byteAt p (p.rindex + 1))) ≠ 0 := by
      rw [hm, lastByte_bytesAt p m (p.rindex + 1 + 1),
        show p.rindex + 1 + 1 + m = p.rindex + 1 + (m + 1) from by omega, ← hm]
      exact hlast
    have hfound :
        (if (bytesAt p (p.rindex + 1 + 1) (byteAt p (p.rindex + 1))).isEmpty = true
          then false
          else decide
            (lastByte (bytesAt p (p.rindex + 1 + 1) (byteAt p (p.rindex + 1))) ≠ 0)) =
          true := by
      rw [hne]
      simp [hlb]
    rw [hfound]
    rfl

/-- Claim C3 witness: the amended statement applied to the well-formed
one-byte window `[0][1][80]`, which decodes successfully. -/
theorem C3_witness :
    (dns_packet_read_type_window windowOkPacket []).map (fun x => x.1) = some 0 :=
  (C3_window_decode_amended windowOkPacket [] (by decide) (by decide)
    (by decide)).2.2.2 (by decide) (by decide) (by decide) (by decide)

/-- One-step unfolding equation for the record loop of the extractor. -/
theorem extractRRLoop_succ (p : DnsPacket) (acc : List (DnsResourceRecord × Nat))
    (i rem : Nat) :
    extractRRLoop p acc i (rem + 1) =
      match dns_packet_read_rr p with
      | none => none
      | some (r, p1, orr) =>
        if r < 0 then some (r, p1, acc)
        else
          match orr with
          | none => some (-EBADMSG, p1, acc)
          | some (rr, cache_flush) =>
            if rr.key.type = DNS_TYPE_OPT then
              if !dns_name_is_root rr.key.name then some (-EBADMSG, p1, acc)
              else if i < DNS_PACKET_ANCOUNT p1 + DNS_PACKET_NSCOUNT p1 then
                some (-EBADMSG, p1, acc)
              else if p1.opt.isSome then some (-EBADMSG, p1, acc)
              else extractRRLoop { p1 with opt := some rr } acc (i + 1) rem
            else
              extractRRLoop p1
                (acc ++ [(rr,
                  (if i < DNS_PACKET_ANCOUNT p1 then DNS_ANSWER_CACHEABLE else 0) +
                    (if p1.protocol = DnsProtocol.mdns ∧ cache_flush = false then
                      DNS_ANSWER_SHARED_OWNER else 0))])
                (i + 1) rem :=
  rfl

/-- Claim C7 (confirmed): during extract, a successfully read record of
type OPT yields FORMAT_ERROR when its owner name is not root, when its
index lies before the Additional section (i < ANCOUNT + NSCOUNT), or
when an OPT was already stored; otherwise it is stored as the packet's
`opt` and the answer list is left untouched.  The final conjunct is
scenario S3: a packet whose single Answer record is an OPT makes
dns_packet_extract return FORMAT_ERROR. -/
theorem C7_extract_opt_rules :
    (∀ (p : DnsPacket) (acc : List (DnsResourceRecord × Nat)) (i rem : Nat)
        (p1 : DnsPacket) (rr : DnsResourceRecord) (cf : Bool),
        dns_packet_read_rr p = some (0, p1, some (rr, cf)) →
        rr.key.type = DNS_TYPE_OPT →
        ((dns_name_is_root rr.key.name = false →
            extractRRLoop p acc i (rem + 1) = some (-EBADMSG, p1, acc)) ∧
          (dns_name_is_root rr.key.name = true →
            i < DNS_PACKET_ANCOUNT p1 + DNS_PACKET_NSCOUNT p1 →
            extractRRLoop p acc i (rem + 1) = some (-EBADMSG, p1, acc)) ∧
          (dns_name_is_root rr.key.name = true →
            ¬ i < DNS_PACKET_ANCOUNT p1 + DNS_PACKET_NSCOUNT p1 →
            p1.opt.isSome = true →
            extractRRLoop p acc i (rem + 1) = some (-EBADMSG, p1, acc)) ∧
          (dns_name_is_root rr.key.name = true →
            ¬ i < DNS_PACKET_ANCOUNT p1 + DNS_PACKET_NSCOUNT p1 →
            p1.opt = none →
            extractRRLoop p acc i (rem + 1) =
              extractRRLoop { p1 with opt := some rr } acc (i + 1) rem))) ∧
    (dns_packet_extract optAnswerPacket).map (fun x => (x.1, x.2.rindex)) =
      some (-EBADMSG, 12) := by
  constructor
  · intro p acc i rem p1 rr cf hread htype
    refine ⟨?_, ?_, ?_, ?_⟩
    · intro hroot
      rw [extractRRLoop_succ, hread]
      dsimp only
      rw [if_neg (by norm_num), if_pos htype, if_pos (by simp [hroot])]
    · intro hroot hlt
      rw [extractRRLoop_succ, hread]
      dsimp only
      rw [if_neg (by norm_num), if_pos htype, if_neg (by simp [hroot]), if_pos hlt]
    · intro hroot hge hopt
      rw [extractRRLoop_succ, hread]
      dsimp only
      rw [if_neg (by norm_num), if_pos htype, if_neg (by simp [hroot]), if_neg hge,
        if_pos hopt]
    · intro hroot hge hopt
      rw [extractRRLoop_succ, hread]
      dsimp only
      rw [if_neg (by norm_num), if_pos htype, if_neg (by simp [hroot]), if_neg hge,
        if_neg (by simp [hopt])]
  · rfl

/-- Claim C7 witness: the loop of the extractor applied to the S3
packet's record section (index 0, ANCOUNT 1, NSCOUNT 0: the OPT sits
before the Additional section) rejects the record with FORMAT_ERROR. -/
theorem C7_witness :
    (extractRRLoop optAnswerStart [] 0 1).map (fun x => (x.1, x.2.2)) =
      some (-EBADMSG, []) := by
  have h := ((C7_extract_opt_rules.1 optAnswerStart [] 0 0 _ _ _ rfl rfl).2.1 rfl
    (by decide))
  rw [h]
  rfl

/-- Claim C8 (confirmed): on a packet within the header-size bounds,
dns_packet_validate_reply returns 0 when QR is not 1; -EBADMSG
(FORMAT_ERROR) when QR is 1 and OPCODE is non-zero, or the protocol is
LLMNR with QDCOUNT not 1 (including 0), or the protocol is mDNS with a
non-zero RCODE; and a positive value in every remaining case. -/
theorem C8_validate_reply_cases :
    ∀ p : DnsPacket, DNS_PACKET_HEADER_SIZE ≤ p.size → p.size ≤ DNS_PACKET_SIZE_MAX →
      ((DNS_PACKET_QR p ≠ 1 → dns_packet_validate_reply p = 0) ∧
       (DNS_PACKET_QR p = 1 → DNS_PACKET_OPCODE p ≠ 0 →
          dns_packet_validate_reply p = -EBADMSG) ∧
       (DNS_PACKET_QR p = 1 → DNS_PACKET_OPCODE p = 0 →
          p.protocol = DnsProtocol.llmnr → DNS_PACKET_QDCOUNT p ≠ 1 →
          dns_packet_validate_reply p = -EBADMSG) ∧
       (DNS_PACKET_QR p = 1 → DNS_PACKET_OPCODE p = 0 →
          p.protocol = DnsProtocol.mdns → DNS_PACKET_RCODE p ≠ 0 →
          dns_packet_validate_reply p = -EBADMSG) ∧
       (DNS_PACKET_QR p = 1 → DNS_PACKET_OPCODE p = 0 →
          (p.protocol = DnsProtocol.llmnr → DNS_PACKET_QDCOUNT p = 1) →
          (p.protocol = DnsProtocol.mdns → DNS_PACKET_RCODE p = 0) →
          0 < dns_packet_validate_reply p)) := by
  intro p hlo hhi
  have hval : dns_packet_validate p = 1 := by
    unfold dns_packet_validate
    rw [if_neg (by omega), if_neg (by omega)]
  have hrw : dns_packet_validate_reply p =
      (if DNS_PACKET_QR p ≠ 1 then 0
       else if DNS_PACKET_OPCODE p ≠ 0 then -EBADMSG
       else
         match p.protocol with
         | .llmnr => if DNS_PACKET_QDCOUNT p ≠ 1 then -EBADMSG else 1
         | .mdns => if DNS_PACKET_RCODE p ≠ 0 then -EBADMSG else 1
         | .dns => 1) := by
    unfold dns_packet_validate_reply
    rw [hval]
    norm_num
  refine ⟨?_, ?_, ?_, ?_, ?_⟩
  · intro hqr
    rw [hrw, if_pos hqr]
  · intro hqr hop
    rw [hrw, if_neg (by simp [hqr]), if_pos hop]
  · intro hqr hop hpr hqd
    rw [hrw, if_neg (by simp [hqr]), if_neg (by simp [hop]), hpr]
    dsimp only
    rw [if_pos hqd]
  · intro hqr hop hpr hrc
    rw [hrw, if_neg (by simp [hqr]), if_neg (by simp [hop]), hpr]
    dsimp only
    rw [if_pos hrc]
  · intro hqr hop hll hmd
    rw [hrw, if_neg (by simp [hqr]), if_neg (by simp [hop])]
    cases hp : p.protocol with
    | llmnr => norm_num [hll hp]
    | mdns => norm_num [hmd hp]
    | dns => norm_num

/-- Claim C8 witness (scenario S6): an LLMNR reply with QDCOUNT = 0 is
rejected with FORMAT_ERROR, not classified as "not a reply". -/
theorem C8_witness :
    dns_packet_validate_reply llmnrBadReplyPacket = -EBADMSG :=
  (C8_validate_reply_cases llmnrBadReplyPacket (by decide) (by decide)).2.2.1
    (by decide) (by decide) rfl (by decide)

/-- Claim C9 (confirmed): dns_packet_read_key strips the 0x8000 bit of
the decoded class and reports cache_flush = true exactly when the
packet protocol is mDNS, the type is not OPT and that bit is set; in
every other case (other protocol, OPT, or bit clear) the class is
returned unchanged with cache_flush = false. -/
theorem C9_read_key_cache_flush :
    ∀ (p p1 p2 p3 : DnsPacket) (nm : DnsName) (ty cls : Nat),
      dns_packet_read_name p true (nameFuel p) = some (0, p1, some nm) →
      dns_packet_read_uint16 p1 = (0, p2, ty) →
      dns_packet_read_uint16 p2 = (0, p3, cls) →
      dns_packet_read_key p =
        some (0, p3,
          some ({ name := nm, type := ty,
                  rclass :=
                    if p.protocol = DnsProtocol.mdns ∧ ty ≠ DNS_TYPE_OPT ∧
                        cls &&& MDNS_RR_CACHE_FLUSH ≠ 0 then
                      cls &&& 32767
                    else cls },
            decide (p.protocol = DnsProtocol.mdns ∧ ty ≠ DNS_TYPE_OPT ∧
              cls &&& MDNS_RR_CACHE_FLUSH ≠ 0))) := by
  intro p p1 p2 p3 nm ty cls h1 h2 h3
  unfold dns_packet_read_key
  rw [h1]
  dsimp only
  rw [if_neg (by norm_num), h2]
  dsimp only
  rw [if_neg (by norm_num), h3]
  dsimp only
  rw [if_neg (by norm_num)]
  rfl

/-- Claim C9 witness (scenario S5): the same key bytes with class
0x8001 decode to class 1 with cache_flush on mDNS, and to class 0x8001
without the flag on conventional DNS. -/
theorem C9_witness :
    (dns_packet_read_key mdnsFlushKeyPacket).map
        (fun x => (x.1, x.2.2.map (fun kc => (kc.1.rclass, kc.2)))) =
        some (0, some (1, true)) ∧
      (dns_packet_read_key dnsFlushKeyPacket).map
        (fun x => (x.1, x.2.2.map (fun kc => (kc.1.rclass, kc.2)))) =
        some (0, some (32769, false)) := by
  constructor
  · have h := C9_read_key_cache_flush mdnsFlushKeyPacket _ _ _ _ _ _ rfl rfl rfl
    rw [h]
    rfl
  · have h := C9_read_key_cache_flush dnsFlushKeyPacket _ _ _ _ _ _ rfl rfl rfl
    rw [h]
    rfl

/-- Claim C6 (confirmed): during compressed name decoding (1) a pointer
octet pair whose 14-bit target P violates
HEADER_SIZE ≤ P < jump_barrier makes the decode loop return -EBADMSG
(FORMAT_ERROR) on the spot; (2) a target inside that range is followed:
the loop continues at P with the jump barrier lowered to P (the barrier
starts at the name's own offset in dns_packet_read_name, so a forward
or self pointer is never followed); and (3) whenever
dns_packet_read_name fails, the returned packet's rindex equals the
pre-call value. -/
theorem C6_pointer_barrier :
    (∀ (p : DnsPacket) (jb ar : Nat) (acc : DnsName) (fuel : Nat),
        p.rindex + 2 ≤ p.size → p.size ≤ DNS_PACKET_SIZE_MAX →
        192 ≤ byteAt p p.rindex →
        (byteAt p p.rindex % 64 * 256 + byteAt p (p.rindex + 1) <
            DNS_PACKET_HEADER_SIZE ∨
          byteAt p p.rindex % 64 * 256 + byteAt p (p.rindex + 1) ≥ jb) →
        readNameLoop p true jb ar acc (fuel + 1) =
          some (-EBADMSG, { p with rindex := p.rindex + 2 }, ar, acc)) ∧
    (∀ (p : DnsPacket) (jb ar : Nat) (acc : DnsName) (fuel : Nat),
        p.rindex + 2 ≤ p.size → p.size ≤ DNS_PACKET_SIZE_MAX →
        192 ≤ byteAt p p.rindex →
        DNS_PACKET_HEADER_SIZE ≤ byteAt p p.rindex % 64 * 256 + byteAt p (p.rindex + 1) →
        byteAt p p.rindex % 64 * 256 + byteAt p (p.rindex + 1) < jb →
        readNameLoop p true jb ar acc (fuel + 1) =
          readNameLoop
            { p with rindex := byteAt p p.rindex % 64 * 256 + byteAt p (p.rindex + 1) }
            true (byteAt p p.rindex % 64 * 256 + byteAt p (p.rindex + 1))
            (if ar = 0 then p.rindex + 2 else ar) acc fuel) ∧
    (∀ (p : DnsPacket) (ac : Bool) (fuel : Nat) (r : Int) (p1 : DnsPacket)
        (v : Option DnsName),
        dns_packet_read_name p ac fuel = some (r, p1, v) → r < 0 →
        p1.rindex = p.rindex) := by
  refine ⟨?_, ?_, ?_⟩
  · intro p jb ar acc fuel h2 hs hc hbad
    rw [readNameLoop_succ, read_uint8_ok p (by omega) hs]
    dsimp only
    rw [if_neg (by norm_num), if_neg (by omega), if_neg (by omega),
      if_pos (show (true = true) ∧ 192 ≤ byteAt p p.rindex from ⟨rfl, hc⟩)]
    have h1 : ({ p with rindex := p.rindex + 1 } : DnsPacket).rindex + 1 ≤
        ({ p with rindex := p.rindex + 1 } : DnsPacket).size := by
      dsimp only
      omega
    rw [read_uint8_ok { p with rindex := p.rindex + 1 } h1 hs]
    dsimp only
    simp only [byteAt_set_rindex]
    rw [if_neg (by norm_num), if_pos (by omega)]
  · intro p jb ar acc fuel h2 hs hc hlo hhi
    rw [readNameLoop_succ, read_uint8_ok p (by omega) hs]
    dsimp only
    rw [if_neg (by norm_num), if_neg (by omega), if_neg (by omega),
      if_pos (show (true = true) ∧ 192 ≤ byteAt p p.rindex from ⟨rfl, hc⟩)]
    have h1 : ({ p with rindex := p.rindex + 1 } : DnsPacket).rindex + 1 ≤
        ({ p with rindex := p.rindex + 1 } : DnsPacket).size := by
      dsimp only
      omega
    rw [read_uint8_ok { p with rindex := p.rindex + 1 } h1 hs]
    dsimp only
    simp only [byteAt_set_rindex]
    rw [if_neg (by norm_num), if_neg (by omega)]
  · intro p ac fuel r p1 v h hr
    rw [read_name_eq] at h
    cases hL : readNameLoop p (if p.refuse_compression then false else ac)
        p.rindex 0 [] fuel with
    | none =>
      rw [hL] at h
      exact absurd h (by simp)
    | some t =>
      obtain ⟨r0, q, ar, acc⟩ := t
      rw [hL] at h
      dsimp only at h
      by_cases hr0 : r0 < 0
      · rw [if_pos hr0] at h
        simp only [Option.some.injEq, Prod.mk.injEq] at h
        rw [← h.2.1]
        rfl
      · rw [if_neg hr0] at h
        simp only [Option.some.injEq, Prod.mk.injEq] at h
        obtain ⟨h1, _⟩ := h
        omega

theorem extend_spec (p : DnsPacket) (add : Nat) :
    (dns_packet_extend p add).2.1.names = p.names ∧
      p.size ≤ (dns_packet_extend p add).2.1.size ∧
      (¬ (dns_packet_extend p add).1 < 0 →
        (dns_packet_extend p add).2.2 = p.size ∧
        (dns_packet_extend p add).2.1.size = p.size + add) ∧
      ((dns_packet_extend p add).1 < 0 → (dns_packet_extend p add).2.1 = p) := by
  unfold dns_packet_extend
  by_cases h1 : p.size + add > p.allocated
  · rw [if_pos h1]
    dsimp only
    by_cases h2 : p.size + add >
        (if PAGE_ALIGN ((p.size + add) * 2) > DNS_PACKET_SIZE_MAX then
          DNS_PACKET_SIZE_MAX
        else PAGE_ALIGN ((p.size + add) * 2))
    · rw [if_pos h2]
      exact ⟨rfl, le_refl _, fun hc => absurd (by norm_num [EMSGSIZE]) hc, fun _ => rfl⟩
    · rw [if_neg h2]
      exact ⟨rfl, Nat.le_add_right p.size add, fun _ => ⟨rfl, rfl⟩,
        fun hc => absurd hc (by norm_num)⟩
  · rw [if_neg h1]
    exact ⟨rfl, Nat.le_add_right p.size add, fun _ => ⟨rfl, rfl⟩,
      fun hc => absurd hc (by norm_num)⟩

theorem append_uint8_spec (p : DnsPacket) (v : Nat) :
    (dns_packet_append_uint8 p v).2.1.names = p.names ∧
      p.size ≤ (dns_packet_append_uint8 p v).2.1.size := by
  have h := extend_spec p 1
  unfold dns_packet_append_uint8
  rcases hE : dns_packet_extend p 1 with ⟨r, p1, start⟩
  rw [hE] at h
  dsimp only
  by_cases hr : r < 0
  · rw [if_pos hr]
    exact ⟨h.1, h.2.1⟩
  · rw [if_neg hr]
    exact ⟨h.1, h.2.1⟩

theorem append_uint16_spec (p : DnsPacket) (v : Nat) :
    (dns_packet_append_uint16 p v).2.1.names = p.names ∧
      p.size ≤ (dns_packet_append_uint16 p v).2.1.size := by
  have h := extend_spec p 2
  unfold dns_packet_append_uint16
  rcases hE : dns_packet_extend p 2 with ⟨r, p1, start⟩
  rw [hE] at h
  dsimp only
  by_cases hr : r < 0
  · rw [if_pos hr]
    exact ⟨h.1, h.2.1⟩
  · rw [if_neg hr]
    exact ⟨h.1, h.2.1⟩

theorem append_label_spec (p : DnsPacket) (d : DnsLabel) (cc : Bool) :
    (dns_packet_append_label p d cc).2.1.names = p.names ∧
      p.size ≤ (dns_packet_append_label p d cc).2.1.size ∧
      (¬ (dns_packet_append_label p d cc).1 < 0 →
        (dns_packet_append_label p d cc).2.2 = p.size ∧
        p.size < (dns_packet_append_label p d cc).2.1.size) := by
  unfold dns_packet_append_label
  by_cases hbig : d.length > DNS_LABEL_MAX
  · rw [if_pos hbig]
    exact ⟨rfl, le_refl _, fun hc => absurd (by norm_num [E2BIG]) hc⟩
  · rw [if_neg hbig]
    have h := extend_spec p (1 + d.length)
    rcases hE : dns_packet_extend p (1 + d.length) with ⟨r, p1, start⟩
    rw [hE] at h
    dsimp only
    by_cases hr : r < 0
    · rw [if_pos hr]
      exact ⟨h.1, h.2.1, fun hc => absurd hr hc⟩
    · rw [if_neg hr]
      refine ⟨h.1, h.2.1, fun _ => ⟨(h.2.2.1 hr).1, ?_⟩⟩
      have := (h.2.2.1 hr).2
      simp only at this ⊢
      omega

theorem namesPut_mem (m : List (DnsName × Nat)) (k : DnsName) (v : Nat) :
    ∀ e ∈ (namesPut m k v).2, e ∈ m ∨ e = (k, v) := by
  unfold namesPut
  cases hG : namesGet m k with
  | none =>
    intro e he
    rcases List.mem_cons.1 he with h | h
    · exact Or.inr h
    · exact Or.inl h
  | some v2 =>
    dsimp only
    by_cases hv : v2 = v
    · rw [if_pos hv]
      exact fun e he => Or.inl he
    · rw [if_neg hv]
      exact fun e he => Or.inl he

theorem truncate_inv (p : DnsPacket) (sz : Nat) (hsz : DNS_PACKET_HEADER_SIZE ≤ sz)
    (h : namesInv p) : namesInv (dns_packet_truncate p sz) := by
  unfold dns_packet_truncate
  by_cases hle : p.size ≤ sz
  · rw [if_pos hle]
    exact h
  · rw [if_neg hle]
    refine ⟨hsz, fun e he => ?_⟩
    have hm := List.mem_filter.1 he
    have hb := h.2 e hm.1
    have hlt : e.2 < sz := by simpa using hm.2
    exact ⟨hb.1, hlt⟩

/-- Transfer of the map invariant along an operation that keeps the map
and does not shrink the packet. -/
theorem namesInv_mono (p q : DnsPacket) (hn : q.names = p.names)
    (hsz : p.size ≤ q.size) (h : namesInv p) : namesInv q := by
  refine ⟨le_trans h.1 hsz, fun e he => ?_⟩
  rw [hn] at he
  have := h.2 e he
  exact ⟨this.1, lt_of_lt_of_le this.2 hsz⟩

theorem appendNameLoop_inv :
    ∀ (name : DnsName) (p : DnsPacket) (ac cc : Bool),
      namesInv p → namesInv (appendNameLoop p name ac cc).2.1 := by
  intro name
  induction name with
  | nil => exact fun p ac cc h => h
  | cons l rest ih =>
    intro p ac cc h
    rw [appendNameLoop]
    dsimp only
    by_cases hptr : (if ac then namesGet p.names (l :: rest) else none).getD 0 > 0 ∧
        (if ac then namesGet p.names (l :: rest) else none).getD 0 < 0x4000
    · rw [if_pos hptr]
      have hU := append_uint16_spec p
        (0xC000 ||| (if ac then namesGet p.names (l :: rest) else none).getD 0)
      rcases hE : dns_packet_append_uint16 p
          (0xC000 ||| (if ac then namesGet p.names (l :: rest) else none).getD 0) with
        ⟨r, p1, s⟩
      rw [hE] at hU
      dsimp only
      by_cases hr : r < 0
      · rw [if_pos hr]
        exact namesInv_mono p p1 hU.1 hU.2 h
      · rw [if_neg hr]
        exact namesInv_mono p p1 hU.1 hU.2 h
    · rw [if_neg hptr]
      unfold dns_label_unescape
      by_cases hbig : l.length > DNS_LABEL_MAX
      · rw [if_pos hbig]
        dsimp only
        rw [if_pos (by norm_num [ENOBUFS])]
        exact h
      · rw [if_neg hbig]
        dsimp only
        rw [if_neg (by norm_num)]
        unfold dns_label_idna
        dsimp only
        rw [if_neg (by norm_num)]
        have hL := append_label_spec p l cc
        rcases hE : dns_packet_append_label p l cc with ⟨r1, p1, nstart⟩
        rw [hE] at hL
        dsimp only at hL
        dsimp only
        by_cases hr1 : r1 < 0
        · rw [if_pos hr1]
          exact namesInv_mono p p1 hL.1 hL.2.1 h
        · rw [if_neg hr1]
          have hinv1 : namesInv p1 := namesInv_mono p p1 hL.1 hL.2.1 h
          have hst := hL.2.2 hr1
          cases ac with
          | false =>
            rw [if_neg (by simp)]
            exact ih p1 false cc hinv1
          | true =>
            rw [if_pos rfl]
            have hPut := namesPut_mem p1.names (l :: rest) nstart
            rcases hP : namesPut p1.names (l :: rest) nstart with ⟨r2, m2⟩
            rw [hP] at hPut
            dsimp only
            have hinv2 : namesInv { p1 with names := m2 } := by
              refine ⟨hinv1.1, fun e he => ?_⟩
              rcases hPut e he with hmem | heq
              · exact hinv1.2 e hmem
              · rw [heq]
                have h12 : DNS_PACKET_HEADER_SIZE ≤ nstart := by
                  rw [hst.1]
                  exact h.1
                refine ⟨h12, ?_⟩
                rw [hst.1]
                exact hst.2
            by_cases hr2 : r2 < 0
            · rw [if_pos hr2]
              exact hinv2
            · rw [if_neg hr2]
              exact ih { p1 with names := m2 } true cc hinv2

/-- Claim C5 counterexample: starting from a packet that satisfies the
claimed invariant (its map is empty) but whose size has reached 0x4000,
appending the one-label name "a" succeeds and stores the offset 0x4000
in the compression map - the code checks the 14-bit bound only when it
LOOKS UP an offset to emit a pointer (line 512), never when storing
one, so the claimed `o < 0x4000` invariant is false. -/
theorem C5_counterexample :
    (dns_packet_append_name mapOverflowPacket [[97]] true false).1 = 0 ∧
      (dns_packet_append_name mapOverflowPacket [[97]] true false).2.1.names =
        [([[97]], 16384)] ∧
      ¬ (16384 < 0x4000) :=
  ⟨rfl, rfl, by norm_num⟩

/-- Claim C5 as amended: after any dns_packet_append_name - the one
operation that populates the compression map - every stored offset o
satisfies HEADER_SIZE ≤ o < size, provided the packet satisfied that
invariant on entry; the 0x4000 bound is not part of the stored-map
invariant (it is enforced at lookup time when deciding whether a
pointer may be emitted). -/
theorem C5_append_name_map_invariant :
    ∀ (p : DnsPacket) (name : DnsName) (ac cc : Bool),
      namesInv p → namesInv (dns_packet_append_name p name ac cc).2.1 := by
  intro p name ac cc h
  unfold dns_packet_append_name
  dsimp only
  have hLoop := appendNameLoop_inv name p
    (if p.refuse_compression then false else ac) cc h
  rcases hE : appendNameLoop p name (if p.refuse_compression then false else ac) cc with
    ⟨r, p1, viaPtr⟩
  rw [hE] at hLoop
  dsimp only at hLoop ⊢
  by_cases hr : r < 0
  · rw [if_pos hr]
    exact truncate_inv p1 p.size h.1 hLoop
  · rw [if_neg hr]
    cases viaPtr with
    | true =>
      rw [if_pos rfl]
      exact hLoop
    | false =>
      rw [if_neg (by simp)]
      have hU := append_uint8_spec p1 0
      rcases hE2 : dns_packet_append_uint8 p1 0 with ⟨r2, p2, s2⟩
      rw [hE2] at hU
      dsimp only
      by_cases hr2 : r2 < 0
      · rw [if_pos hr2]
        exact namesInv_mono p1 p2 hU.1 hU.2 hLoop
      · rw [if_neg hr2]
        exact namesInv_mono p1 p2 hU.1 hU.2 hLoop

/-- Claim C5 witness: the amended invariant applied to the concrete
0x4000-sized packet and the name "a". -/
theorem C5_witness :
    namesInv (dns_packet_append_name mapOverflowPacket [[97]] true false).2.1 :=
  C5_append_name_map_invariant mapOverflowPacket [[97]] true false
    ⟨by norm_num [mapOverflowPacket, DNS_PACKET_HEADER_SIZE], by simp [mapOverflowPacket]⟩

/-- Claim C6 witness: the S4 self-pointer (target 12 with barrier 12,
not below it) is rejected on the spot, and the failing
dns_packet_read_name leaves the cursor where it started. -/
theorem C6_witness :
    readNameLoop selfPointerPacket true 12 0 [] 9 =
        some (-EBADMSG, { selfPointerPacket with rindex := 14 }, 0, []) ∧
      selfPointerPacket.rindex = selfPointerPacket.rindex := by
  constructor
  · exact C6_pointer_barrier.1 selfPointerPacket 12 0 [] 8 (by decide) (by decide)
      (by decide) (Or.inr (by decide))
  · exact C6_pointer_barrier.2.2 selfPointerPacket true 10 (-EBADMSG)
      selfPointerPacket none rfl (by norm_num [EBADMSG])

end Systemd
